import Mathlib

/-!
# Verification of the Nocturne stealth-payment / privacy-pool core

This file gives a shallow embedding, in Lean 4, of the cryptographic core of
the Nocturne repository (Rust), and proves or refutes a fixed list of claims
about it.  The embedding conventions are:

* A Rust `[u8; 32]` (and other fixed byte arrays) is represented by its
  little-endian numeric value as a `Nat`; equality of byte arrays corresponds
  exactly to equality of the encoded values.  The all-zero array is `0`.
* `u64` limbs are `Nat` values kept below `2^64` by the operations themselves;
  where Rust wraps (`wrapping_add`, discarded carries, `as u64` truncation)
  the model takes the remainder by the corresponding power of two explicitly.
* `i64` timestamps are `Int`.
* Fallible Rust functions returning `Result` are modelled with `Except`;
  `Option`-returning functions with `Option`.
* External collaborators that are not part of this repository
  (SHA-256, the Solana `alt_bn128` syscalls, the `curve25519-dalek` group
  operations, the oracle-attestation proof verifier) enter as explicit
  function parameters of the embedded definitions.
-/

namespace Nocturne

/-! ## Field arithmetic (`programs/stealth/src/crypto/poseidon.rs`)

The `Fr` type mirrors the source's four-limb 256-bit representation
(`pub struct Fr { pub limbs: [u64; 4] }`, little-endian limbs). -/

/-- The constant `2^64`, the limb radix. -/
def U64 : Nat := 2 ^ 64

/-- The constant `2^128`, the radix of the `u128` accumulators used by `Fr::mul`. -/
def U128 : Nat := 2 ^ 128

/-- Field element: four 64-bit limbs, least significant first
(`Fr { limbs: [u64; 4] }`). -/
structure Fr where
  l0 : Nat
  l1 : Nat
  l2 : Nat
  l3 : Nat
deriving DecidableEq, Repr

/-- Source `Fr::ZERO`. -/
def Fr.ZERO : Fr := ⟨0, 0, 0, 0⟩

/-- Source `Fr::ONE`. -/
def Fr.ONE : Fr := ⟨1, 0, 0, 0⟩

/-- Limb 0 of `BN254_MODULUS`. -/
def M0 : Nat := 0x43e1f593f0000001
/-- Limb 1 of `BN254_MODULUS`. -/
def M1 : Nat := 0x2833e84879b97091
/-- Limb 2 of `BN254_MODULUS`. -/
def M2 : Nat := 0xb85045b68181585d
/-- Limb 3 of `BN254_MODULUS`. -/
def M3 : Nat := 0x30644e72e131a029

/-- The BN254 scalar-field modulus `p` as a number
(value of the limb array `BN254_MODULUS`). -/
def pBN254 : Nat := M0 + U64 * M1 + U64 ^ 2 * M2 + U64 ^ 3 * M3

/-- Numeric value of a field element (little-endian limb composition). -/
def Fr.val (x : Fr) : Nat := x.l0 + U64 * x.l1 + U64 ^ 2 * x.l2 + U64 ^ 3 * x.l3

/-- Source `Fr::gte_modulus`: lexicographic limb comparison from the most significant
limb down; returns `true` when equal to the modulus. -/
def Fr.gteModulus (x : Fr) : Bool :=
  if x.l3 > M3 then true else if x.l3 < M3 then false else
  if x.l2 > M2 then true else if x.l2 < M2 then false else
  if x.l1 > M1 then true else if x.l1 < M1 then false else
  if x.l0 > M0 then true else if x.l0 < M0 then false else
  true

/-- One limb step of the borrow-propagating subtraction used by `Fr::reduce`
and `Fr::fast_reduce`: `diff = a - m - borrow` in `i128`; a negative result is
wrapped by `2^64` and sets the outgoing borrow. -/
def subLimb (a m borrow : Nat) : Nat × Nat :=
  let diff : Int := (a : Int) - (m : Int) - (borrow : Int)
  if diff < 0 then ((diff + (2 : Int) ^ 64).toNat, 1) else (diff.toNat, 0)

/-- One pass of the loop body of `Fr::reduce`: subtract the modulus limb-wise
with borrow propagation (the final borrow is discarded, as in the source). -/
def Fr.subModulus (x : Fr) : Fr :=
  let r0 := subLimb x.l0 M0 0
  let r1 := subLimb x.l1 M1 r0.2
  let r2 := subLimb x.l2 M2 r1.2
  let r3 := subLimb x.l3 M3 r2.2
  ⟨r0.1, r1.1, r2.1, r3.1⟩

/-- Fuelled version of the `while self.gte_modulus()` loop of `Fr::reduce`. -/
def Fr.reduceFuel : Nat → Fr → Fr
  | 0, x => x
  | n + 1, x => if x.gteModulus then Fr.reduceFuel n x.subModulus else x

/-- Source `Fr::reduce`: subtract the modulus while `self >= p`.  The Rust loop is
unbounded; every value reachable with 64-bit limbs is below `2^256 < 6·p`, so
the loop body runs at most five times and a fuel of six is exact. -/
def Fr.reduce (x : Fr) : Fr := Fr.reduceFuel 6 x

/-- Source `Fr::from_bytes` (little-endian bytes, i.e. the numeric value, split into
four 64-bit limbs, then reduced). -/
def Fr.fromBytes (b : Nat) : Fr :=
  (Fr.mk (b % U64) (b / U64 % U64) (b / U64 ^ 2 % U64) (b / U64 ^ 3 % U64)).reduce

/-- Source `Fr::to_bytes` (little-endian byte value of the four limbs). -/
def Fr.toBytes (x : Fr) : Nat := x.val

/-- Source `Fr::from_u64`. -/
def Fr.fromU64 (v : Nat) : Fr := ⟨v, 0, 0, 0⟩

/-- Source `Fr::add`: limb adds with carry; the carry out of the top limb is
discarded by the source (the result array has four limbs); then the source
calls `reduce` once more after an optional carry-triggered `reduce`. -/
def Fr.add (x y : Fr) : Fr :=
  let s0 := x.l0 + y.l0
  let s1 := x.l1 + y.l1 + s0 / U64
  let s2 := x.l2 + y.l2 + s1 / U64
  let s3 := x.l3 + y.l3 + s2 / U64
  let fr : Fr := ⟨s0 % U64, s1 % U64, s2 % U64, s3 % U64⟩
  let fr := if s3 / U64 > 0 then fr.reduce else fr
  fr.reduce

/-- The 512-bit schoolbook product of `Fr::mul`, as the eight `u128`
accumulators after the carry-propagation pass.  The source accumulates with
`wrapping_add` on `u128` (hence the `% 2^128`), then propagates
`carry = result[i] >> 64` into `result[i+1]` (again wrapping) and masks each
limb to 64 bits. -/
def Fr.mulWide (x y : Fr) : List Nat :=
  let t0 := (x.l0 * y.l0) % U128
  let t1 := (x.l0 * y.l1 + x.l1 * y.l0) % U128
  let t2 := (x.l0 * y.l2 + x.l1 * y.l1 + x.l2 * y.l0) % U128
  let t3 := (x.l0 * y.l3 + x.l1 * y.l2 + x.l2 * y.l1 + x.l3 * y.l0) % U128
  let t4 := (x.l1 * y.l3 + x.l2 * y.l2 + x.l3 * y.l1) % U128
  let t5 := (x.l2 * y.l3 + x.l3 * y.l2) % U128
  let t6 := (x.l3 * y.l3) % U128
  let t7 := 0
  let u0 := t0 % U64
  let t1 := (t1 + t0 / U64) % U128
  let u1 := t1 % U64
  let t2 := (t2 + t1 / U64) % U128
  let u2 := t2 % U64
  let t3 := (t3 + t2 / U64) % U128
  let u3 := t3 % U64
  let t4 := (t4 + t3 / U64) % U128
  let u4 := t4 % U64
  let t5 := (t5 + t4 / U64) % U128
  let u5 := t5 % U64
  let t6 := (t6 + t5 / U64) % U128
  let u6 := t6 % U64
  let t7 := (t7 + t6 / U64) % U128
  let u7 := t7 % U64
  [u0, u1, u2, u3, u4, u5, u6, u7]

/-- The test `n[4] == 0 && n[5] == 0 && n[6] == 0 && n[7] == 0` in `Fr::fast_reduce`. -/
def highLimbsZero (n : List Nat) : Bool :=
  n.getD 4 0 == 0 && n.getD 5 0 == 0 && n.getD 6 0 == 0 && n.getD 7 0 == 0

/-- The shift search of `Fr::fast_reduce`: the highest index in `4..=7` whose
limb is non-zero (the `shift < 4` exit cannot fire because the caller has
already checked `highLimbsZero`). -/
def findShift (n : List Nat) : Nat :=
  if n.getD 7 0 ≠ 0 then 7 else if n.getD 6 0 ≠ 0 then 6 else
  if n.getD 5 0 ≠ 0 then 5 else 4

/-- The inner four-limb subtraction of `Fr::fast_reduce`: subtract the modulus
limbs at offsets `s..s+3` (with `s = shift - 3 ≤ 4` every index stays below 8,
so the `idx > 7` guard of the source never fires); returns the updated limbs
and the outgoing borrow. -/
def subAtOffset (n : List Nat) (s : Nat) : List Nat × Nat :=
  let r0 := subLimb (n.getD s 0) M0 0
  let r1 := subLimb (n.getD (s + 1) 0) M1 r0.2
  let r2 := subLimb (n.getD (s + 2) 0) M2 r1.2
  let r3 := subLimb (n.getD (s + 3) 0) M3 r2.2
  ((((n.set s r0.1).set (s + 1) r1.1).set (s + 2) r2.1).set (s + 3) r3.1, r3.2)

/-- Structural helper for `propagateBorrow`: the first argument counts the
remaining loop iterations (`8 - i`). -/
def propagateBorrowGo : Nat → List Nat → Nat → Nat → List Nat × Nat
  | 0, n, _, borrow => (n, borrow)
  | c + 1, n, i, borrow =>
    if borrow == 0 then (n, 0)
    else if n.getD i 0 > 0 then (n.set i (n.getD i 0 - 1), 0)
    else propagateBorrowGo c (n.set i (U64 - 1)) (i + 1) borrow

/-- The borrow-propagation loop `for i in (s + 4)..8` of `Fr::fast_reduce`:
a positive limb absorbs the borrow and stops; a zero limb is set to
`u64::MAX` and the borrow continues. -/
def propagateBorrow (n : List Nat) (i : Nat) (borrow : Nat) : List Nat × Nat :=
  propagateBorrowGo (8 - i) n i borrow

/-- The bounded reduction loop `for _ in 0..10` of `Fr::fast_reduce`.  Each
round: exit when the high limbs are zero; otherwise subtract the modulus
shifted to the highest non-zero limb; if the subtraction borrows out, the
attempt is reverted and the loop exits (`can_sub = false`), leaving the high
limbs in place. -/
def fastReduceLoop : Nat → List Nat → List Nat
  | 0, n => n
  | fuel + 1, n =>
    if highLimbsZero n then n
    else
      let s := findShift n - 3
      let sub := subAtOffset n s
      let prop := propagateBorrow sub.1 (s + 4) sub.2
      if prop.2 == 0 then fastReduceLoop fuel prop.1 else n

/-- Source `Fr::fast_reduce`: truncate the eight `u128` accumulators to `u64`
(`n[i] = wide[i] as u64`), run the bounded subtract loop, keep the low four
limbs and `reduce`. -/
def Fr.fastReduce (wide : List Nat) : Fr :=
  let n := wide.map (· % U64)
  let n := fastReduceLoop 10 n
  (Fr.mk (n.getD 0 0) (n.getD 1 0) (n.getD 2 0) (n.getD 3 0)).reduce

/-- Source `Fr::mul`: 512-bit schoolbook multiply followed by `fast_reduce`. -/
def Fr.mul (x y : Fr) : Fr := Fr.fastReduce (Fr.mulWide x y)

/-- Source `Fr::pow5`: `x^5` via `x2 = x·x`, `x4 = x2·x2`, `x4·x`. -/
def Fr.pow5 (x : Fr) : Fr :=
  let x2 := x.mul x
  let x4 := x2.mul x2
  x4.mul x


/-! ## Poseidon permutation (`programs/stealth/src/crypto/poseidon.rs`) -/

/-- Source `POSEIDON_T`: state width. -/
def POSEIDON_T : Nat := 3
/-- Source `POSEIDON_RF`: number of full rounds. -/
def POSEIDON_RF : Nat := 8
/-- Source `POSEIDON_RP`: number of partial rounds. -/
def POSEIDON_RP : Nat := 57
/-- Source `POSEIDON_ROUNDS = RF + RP = 65`. -/
def POSEIDON_ROUNDS : Nat := POSEIDON_RF + POSEIDON_RP

/-- Source `ROUND_CONSTANTS`: the 195 Poseidon round constants (65 rounds x 3), each
given as four 64-bit limbs, least significant first, as in the source. -/
def ROUND_CONSTANTS : List Fr := [
  Fr.mk 0x8d21d47304cd8e6e 0x14c4993c11bb2993 0xd05986d656f40c21 0x0ee9a592ba9a9518,
  Fr.mk 0x5696fff40956e864 0x887b08d4d00868df 0x5986587169fc1bcd 0x00f1445235f2148c,
  Fr.mk 0xe879f3890ecf73f5 0x30c728730b7ab36c 0x1f29a058d0fa80b9 0x08dff3487e8ac99e,
  Fr.mk 0x20966310fadc01d0 0x56c35342c84bda6e 0xc3ce28f7532b13c8 0x2f27be690fdaee46,
  Fr.mk 0x8b8327bebca16cf2 0xb763fe04b8043ee4 0x2416bebf3d4f6234 0x2b2ae1acf68b7b8d,
  Fr.mk 0xe64b44c7dbf11cfa 0x5952c175ab6b03ea 0xcca5eac06f97d4d5 0x0319d062072bef7e,
  Fr.mk 0x8ef7b387bf28526d 0xc8b7bf27ad49c629 0x8a376df87af4a63b 0x28813dcaebaeaa82,
  Fr.mk 0x150928adddf9cb78 0x2033865200c352bc 0xf181bf38e1c1d40d 0x2727673b2ccbc903,
  Fr.mk 0xb8fb9e31e65cc632 0x6efbd43e340587d6 0xe74abd2b2a1494cd 0x234ec45ca27727c2,
  Fr.mk 0xcd99ff6e8797d428 0xab10a8150a337b1c 0x7f862cb2cf7cf760 0x15b52534031ae18f,
  Fr.mk 0xd701d4eecf68d1f6 0x8e0e8a8d1b58b132 0x5ed9a3d186b79ce3 0x0dc8fad6d9e4b35f,
  Fr.mk 0x97805518a47e4d9c 0xea4eb378f62e1fec 0x600f705fad3fb567 0x1bcd95ffc211fbca,
  Fr.mk 0x17cb978d069de559 0xc76da36c25789378 0xe9eff81b016fc34d 0x10520b0ab721cadf,
  Fr.mk 0xe88a9eb81f5627f6 0x2932498075fed0ac 0x9b257d8ed5fbbaf4 0x1f6d48149b8e7f7d,
  Fr.mk 0xca34bdb5460c8705 0xfff8dc1c816f0dc9 0xd29e00ef35a2089b 0x1d9655f652309014,
  Fr.mk 0x8fe3d4185697cc7d 0xa731ff67e4703205 0xb051f7b1cd43a99b 0x04df5a56ff95bcaf,
  Fr.mk 0xf6ec282b6e4be828 0x8690a10a8c8424a7 0x151b3d290cedaf14 0x0672d995f8fff640,
  Fr.mk 0x9fc1d8209b5c75b9 0x0c9a9dcc06f2708e 0xb21200d7ffafdd5f 0x099952b414884454,
  Fr.mk 0x83fd0e843a6b9fa6 0x48e43586a9b4cd91 0x7c483143ba8d4694 0x052cba2255dfd00c,
  Fr.mk 0x16077cb93c464ddc 0x82de55707251ad77 0xb0bd74712b7999af 0x0b8badee690adb8e,
  Fr.mk 0xb963d0a8e4b2bdd1 0x49c15d60683a8050 0x5a1ee651020c07c7 0x119b1590f13307af,
  Fr.mk 0xce15be0bfb4a8d09 0x2c4acfc884ef4ee5 0x2529d36be0f67b83 0x03150b7cd6d5d17b,
  Fr.mk 0xbe69cb317c9ea565 0x5374efb83d80898a 0x3cf1951f17391235 0x2cc6182c5e14546e,
  Fr.mk 0x92d2cd73111bf0f9 0x4218cadedac14e2b 0x50cfe129a404b376 0x005032551e6378c4,
  Fr.mk 0x88f9da2cc28276b5 0x6469c399fcc069fb 0xbb147e972ebcb951 0x233237e3289baa34,
  Fr.mk 0xe80c2d4c24d60280 0x23037f21b34ae5a4 0xc980d31674bfbe63 0x05c8f4f4ebd4a6e3,
  Fr.mk 0xee1f09b2590fc65b 0x52bcf35ef3aeed91 0xba05d818a319f252 0x0a7b1db13042d396,
  Fr.mk 0x5df542365a404ec0 0xf156e2b086ff47dc 0xb14296572c9d32db 0x2a73b71f9b210cf5,
  Fr.mk 0x76a760bb5c50c460 0xec18f2c4dbe7f229 0x935107e9ffc91dc3 0x1ac9b0417abcc9a1,
  Fr.mk 0x9015ee046dc93fc0 0x269f3e4d6cb10434 0x3fabb076707ef479 0x12c0339ae0837482,
  Fr.mk 0x8246682e56e9a28e 0x52900aa3253baac6 0x7f5b18db4e1e704f 0x0b7475b102a165ad,
  Fr.mk 0x32ab3aa88d7f8448 0x7c843e379366f2ea 0xdb1c5e49f6e8b891 0x037c2849e191ca3e,
  Fr.mk 0x45fdb176a716346f 0xd5206c5c93a07dc1 0xe92674661e217e9b 0x05a6811f8556f014,
  Fr.mk 0x7b675ef5f38bd66e 0x4076e87a7b2883b4 0x6e947b75d54e9f04 0x29a795e7d9802894,
  Fr.mk 0x507be199981fd22f 0x6e8c7382c8a1585c 0x45a3857afc18f582 0x20439a0c84b322eb,
  Fr.mk 0x4a2a6f2a0982c887 0xbb50f27799a84b6d 0x94ec2050c7371ff1 0x2e0ba8d94d9ecf4a,
  Fr.mk 0xe6d0ddcca17d71c8 0x17822cd2109048d2 0xca38eb7cce822b45 0x143fd115ce08fb27,
  Fr.mk 0xc84323623be9caf1 0xf8611659323dbcbf 0x57968dbbdcf813cd 0x0c64cbecb1c734b8,
  Fr.mk 0xf1426cef9403da53 0xe74f348d62c2b670 0x46fca925c163ff5a 0x028a305847c683f6,
  Fr.mk 0x24d6755b5db9e30c 0x6a6bcb64d89427b8 0x5fa940ab4c4380f2 0x2e4ef510ff0b6fda,
  Fr.mk 0xb96384f50579400e 0x8925b4f6d033b078 0x63d79270c956ce3b 0x0081c95bc43384e6,
  Fr.mk 0xba8a9f4023a0bb38 0xe2491b349c039a0b 0x187e2fade687e05e 0x2ed5f0c91cbd9749,
  Fr.mk 0x990f01f33a735206 0x3448a22c76234c8c 0x4bbf374ed5aae2f0 0x30509991f88da350,
  Fr.mk 0xa7529094424ec6ad 0xf0a1119fb2067b41 0x221b7c4d49a356b9 0x1c3f20fd55409a53,
  Fr.mk 0x170887b47ddcb96c 0xc46bb2213e8e131e 0x049514459b6e18ee 0x10b4e7f3ab5df003,
  Fr.mk 0x039aa3502e43adef 0xdd80f804c077d775 0x3ddd543d891c2abd 0x2a1982979c3ff7f4,
  Fr.mk 0x5cad0f1315bd5c91 0xba431ebc396c9af9 0xfeddbead56d6d55d 0x1c74ee64f15e1db6,
  Fr.mk 0x9c2fe45a0ae146a0 0x9e4f2e8b82708cfa 0xeab9303cace01b4b 0x07533ec850ba7f98,
  Fr.mk 0x8a11abf3764c0750 0x285c68f42d42c180 0xa151e4eeaf17b154 0x21576b438e500449,
  Fr.mk 0x743d6930836d4a9e 0xbce8384c815f0906 0x08ad5ca193d62f10 0x2f17c0559b8fe796,
  Fr.mk 0xe665b0b1b7e2730e 0x9775a4201318474a 0xa79e8aae946170bc 0x2d477e3862d07708,
  Fr.mk 0xd89be0f5b2747eab 0xafba2266c38f5abc 0x90e095577984f291 0x162f5243967064c3,
  Fr.mk 0x7777a70092393311 0xd7a8596a87f29f8a 0x264ecd2c8ae50d1a 0x2b4cb233ede9ba48,
  Fr.mk 0x4254e7c35e03b07a 0x6db2eece6d85c4cf 0x1dbaf8f462285477 0x2c8fbcb2dd8573dc,
  Fr.mk 0xe5e88db870949da9 0x9e1b61e9f601e9ad 0xf2ff453f0cd56b19 0x1d6f347725e4816a,
  Fr.mk 0x4cd49af5c4565529 0xf9e6ac02b68d3132 0xebc2d8b3df5b913d 0x204b0c397f4ebe71,
  Fr.mk 0x4ff8fb75bc79c502 0x9ecb827cd7dc2553 0x4f1149b3c63c3c2f 0x0c4cb9dc3c4fd817,
  Fr.mk 0x9a616ddc45bc7b54 0x1e5c49475279e063 0xa25416474f493030 0x174ad61a1448c899,
  Fr.mk 0x3a9816d49a38d2ef 0xeaaa28c177cc0fa1 0xf759df4ec2f3cde2 0x1a96177bcf4d8d89,
  Fr.mk 0x8242ace360b8a30a 0x05202c126a233c1a 0xd0ef8054bc60c4ff 0x066d04b24331d71c,
  Fr.mk 0x27037a62aa1bd804 0x381cc65f72e02ad5 0x2195782871c6dd3b 0x2a4c4fc6ec0b0cf5,
  Fr.mk 0xe55afc01219fd649 0x5e727f8446f6d9d7 0x47e9f2e14a7cedc9 0x13ab2d136ccf37d4,
  Fr.mk 0x4c2e3e869acc6a9a 0xc1b04fcec26f5519 0x19d24d843dc82769 0x1121552fca260616,
  Fr.mk 0x09a5546c7c97cff1 0xa6cd267d595c4a89 0x889bc81715c37d77 0x00ef653322b13d6c,
  Fr.mk 0x845aca35d8a397d3 0x400c776d652595d9 0x8b261d8ba74051e6 0x0e25483e45a66520,
  Fr.mk 0x46448db979eeba89 0x395ac3d4dde92d8c 0x245264659e15d88e 0x29f536dcb9dd7682,
  Fr.mk 0x0e456baace0fa5be 0x5a124e2780bbea17 0xdfda33575dbdbd88 0x2a56ef9f2c53feba,
  Fr.mk 0xee416240a8cb9af1 0xf2ae2999a46762e8 0xecfb7a2d17b5c409 0x1c8361c78eb5cf5d,
  Fr.mk 0xd3d0ab4be74319c5 0x83e8e68a764507bf 0xc0473089aaf0206b 0x151aff5f38b20a0f,
  Fr.mk 0xe76e47615b51f100 0xa9f52fc8c8b6cdd1 0xc1b239c88f7f9d43 0x04c6187e41ed881d,
  Fr.mk 0x9e801b7ddc9c2967 0x4b81c61ed1577644 0x10d84331f6fb6d53 0x13b37bd80f4d27fb,
  Fr.mk 0x9321ceb1c4e8a8e4 0x2ce3664c2a52032c 0xf578bfbd32c17b7a 0x01a5c536273c2d9d,
  Fr.mk 0x832239065b7c3b02 0x4a9a2c666b9726da 0x5ad05f5d7acb950b 0x2ab3561834ca7383,
  Fr.mk 0x9f7ed516a597b646 0xacaf6af4e95d3bf6 0x200fe6d686c0d613 0x1d4d8ec291e720db,
  Fr.mk 0x1514c9c80b65af1d 0xb925351240a04b71 0x8f5784fe7919fd2b 0x041294d2cc484d22,
  Fr.mk 0x042971dd90e81fc6 0x98f57939d126e392 0x1c4fa715991f0048 0x154ac98e01708c61,
  Fr.mk 0x4524563bc6ea4da4 0x50b3684c88f8b0b0 0x3eedd84093aef510 0x0b339d8acca7d4f8,
  Fr.mk 0x81ed95b50839c82e 0x98f0e71eaff4a7dd 0x54a4f84cfbab3445 0x0955e49e6610c942,
  Fr.mk 0x3525401ea0654626 0xa9a6f41e6f535c6f 0x26b9e22206f15abc 0x06746a6156eba544,
  Fr.mk 0xac917c7ff32077fb 0x38e5790e2bd0a196 0x496f3820c549c278 0x0f18f5a0ecd1423c,
  Fr.mk 0x2a738223d6f76e13 0x4bb563583ede7bc9 0x8ac59eff5beb261e 0x04f6eeca1751f730,
  Fr.mk 0xc1768d26fc0b3758 0x8811eb116fb3e45b 0xc1a3ec4da3cdce03 0x2b56973364c4c4f5,
  Fr.mk 0x83feb65d437f29ef 0x8e1392b385716a5d 0xdcd76b89804b1bcb 0x123769dd49d5b054,
  Fr.mk 0x94257b2fb01c63e9 0xa989f64464711509 0x88ee52b91169aace 0x2147b424fc48c80a,
  Fr.mk 0xea54ad897cebe54d 0x647e6f34ad4243c2 0x1a6c5505ea332a29 0x0fdc1f58548b8570,
  Fr.mk 0x944f685cc0a0b1f2 0xbceff28c5dbbe0c3 0xdf68abcf0f7786d4 0x12373a8251fea004,
  Fr.mk 0xdd8a1f35c1a90035 0xa642756b6af44203 0xad7ea52ff742c9e8 0x21e4f4ea5f35f85b,
  Fr.mk 0x8a81934f1bc3b147 0xb57366492f45e90d 0xdfb4722224d4c462 0x16243916d69d2ca3,
  Fr.mk 0xa13a4159cac04ac2 0xabc21566e1a0453c 0xf66f9adbc88b4378 0x1efbe46dd7a578b4,
  Fr.mk 0x3b672cc96a88969a 0xd468d5525be66f85 0x8886020e23a7f387 0x07ea5e8537cf5dd0,
  Fr.mk 0xa9fe16c0b76c00bc 0x650f19a75e7ce11c 0xb7b478a30f9a5b63 0x05a8c4f9968b8aa3,
  Fr.mk 0x2d9d57b72a32e83f 0x3f7818c701b9c788 0xfbfe59bd345e8dac 0x20f057712cc21654,
  Fr.mk 0x9bd90b33eb33db69 0x6dcd8e88d01d4901 0x9672f8c67fee3163 0x04a12ededa9dfd68,
  Fr.mk 0xe49ec9544ccd101a 0xbd136ce5091a6767 0xe44f1e5425a51dec 0x27e88d8c15f37dce,
  Fr.mk 0x176c41ee433de4d1 0x6e096619a7703223 0xb8a5c8c5e95a41f6 0x2feed17b84285ed9,
  Fr.mk 0x6972b8bd53aff2b8 0x94e5942911312a0d 0x404241420f729cf3 0x1ed7cc76edf45c7c,
  Fr.mk 0xdf2874be45466b1a 0xac6783476144cdca 0x157ff8c586f5660e 0x15742e99b9bfa323,
  Fr.mk 0x284f033f27d0c785 0x77107454c6ec0317 0xc895fc6887ddf405 0x1aac285387f65e82,
  Fr.mk 0xec75a96554d67c77 0x832e2e7a49775f71 0xf9ddadbdb6057357 0x25851c3c845d4790,
  Fr.mk 0x0ddccc3d9f146a67 0x53b7ebba2c552337 0xce78457db197edf3 0x15a5821565cc2ec2,
  Fr.mk 0x2f15485f28c71727 0xdcf64f3604427750 0x0efa7e31a1db5966 0x2411d57a4813b998,
  Fr.mk 0x58828b5ef6cb4c9b 0x47e9a98e12f4cd25 0x13e335b8c0b6d2e6 0x002e6f8d6520cd47,
  Fr.mk 0x398834609e0315d2 0xaf8f0e91e2fe1ed7 0x97da00b616b0fcd1 0x2ff7bc8f4380cde9,
  Fr.mk 0xe93be4febb0d3cbe 0x2e9521f6b7bb68f1 0x5ee02724471bcd18 0x00b9831b94852559,
  Fr.mk 0x7d77adbf0c9c3512 0x1ca408648a4743a8 0x86913b0e57c04e01 0x0a2f53768b8ebf6a,
  Fr.mk 0x7f2a290305e1198d 0x0f599ff7e94be69b 0x3a479f91ff239e96 0x00248156142fd037,
  Fr.mk 0x50eb512a2b2bcda9 0x397196aa6a542c23 0x28cf8c02ab3f0c9a 0x171d5620b87bfb13,
  Fr.mk 0x9d1045e4ec34a808 0x60c952172dd54dd9 0x70087c7c10d6fad7 0x170a4f55536f7dc9,
  Fr.mk 0x482eca17e2dbfae1 0xcc37e38c1cd211ba 0x2ef3134aea04336e 0x29aba33f799fe66c,
  Fr.mk 0xb5ba650369e64973 0xe70d114a03f6a0e8 0xfdd1bb1945088d47 0x1e9bc179a4fdd758,
  Fr.mk 0x9c9e1c43bdaf8f09 0xfeaad869a9c4b44f 0x58f7f4892dfb0b5a 0x1dd269799b660fad,
  Fr.mk 0x5d1dd2cb0f24af38 0x7ccd426fe869c7c9 0x401181d02e15459e 0x22cdbc8b70117ad1,
  Fr.mk 0xd5ba93b9c7dacefd 0xfd3150f52ed94a7c 0x3a9f57a55c503fce 0x0ef042e454771c53,
  Fr.mk 0x3b304ffca62e8284 0x1318e8b08a0359a0 0xf287f3036037e885 0x11609e06ad6c8fe2,
  Fr.mk 0x08b08f5b783aa9af 0xfecd58c076dfe427 0x9e753eea427c17b7 0x1166d9e554616dba,
  Fr.mk 0xf855a888357ee466 0x177fbf4cd2ac0b56 0x93413026354413db 0x2de52989431a8595,
  Fr.mk 0x74bf01cf5f71e9ad 0xf51aee5b17b8e89d 0x9a6da492f3a8ac1d 0x3006eb4ffc7a8581,
  Fr.mk 0x62344c8225145086 0x2993fe8f0a4639f9 0xfdcf6fff9e3f6f42 0x2af41fbb61ba8a80,
  Fr.mk 0x81b214bace4827c3 0x8718ab27889e85e7 0xe5a6b41a8ebc85db 0x119e684de476155f,
  Fr.mk 0xcff784b97b3fd800 0xb51248c23828f047 0x188bea59ae363537 0x1835b786e2e8925e,
  Fr.mk 0x6c40e285ab32eeb6 0xd152bac2a7905c92 0x4d794996c6433a20 0x28201a34c594dfa3,
  Fr.mk 0x4a761f88c22cc4e7 0x864c82eb57118772 0x94e80fefaf78b000 0x083efd7a27d17510,
  Fr.mk 0x9e079564f61fd13b 0x11c16df7774dd851 0x6158e61ceea27be8 0x0b6f88a357719952,
  Fr.mk 0x14390e6ee4254f5b 0x589511ca00d29e10 0x644f66e1d6471a94 0x0ec868e6d15e51d9,
  Fr.mk 0x00d937ab84c98591 0xecd3e74b939cd40d 0x1ac0c9b3ed2e1142 0x2af33e3f86677127,
  Fr.mk 0x364ce5e47951f178 0x34568c547dd6858b 0xd09b5d961c6ace77 0x0b520211f904b5e7,
  Fr.mk 0xca228620188a1d40 0xa0c56ac4270e822c 0xd8db58f10062a92e 0x0b2d722d0919a1aa,
  Fr.mk 0xe0061d1ed6e562d4 0x57b54a9991ca38bb 0xd980ceb37c2453e9 0x1f790d4d7f8cf094,
  Fr.mk 0xda92ceb01e504233 0x0885c16235a2a6a8 0xaea97cd385f78015 0x0171eb95dfbf7d1e,
  Fr.mk 0x762305381b168873 0x790b40defd2c8650 0x329bf6885da66b9b 0x0c2d0e3b5fd57549,
  Fr.mk 0x5d3803054407a18d 0x7cbcafa589e283c3 0x4e5a8228b4e72b37 0x1162fb28689c2715,
  Fr.mk 0x1623ef8249711bc0 0x282c5a92a89e1992 0x64ad386a91e8310f 0x2f1459b65dee441b,
  Fr.mk 0xc243f70d1b53cfbb 0xbc489d46754eb712 0x996d74367d5cd4c1 0x1e6ff3216b688c3d,
  Fr.mk 0x76881f9326478875 0xd741a6f36cdc2a05 0x681487d27d157802 0x01ca8be73832b8d0,
  Fr.mk 0x0b9b5de315f9650e 0x680286080b10cea0 0x86f976d5bdf223dc 0x1f7735706ffe9fc5,
  Fr.mk 0x4745ca838285f019 0x21ac10a3d5f096ef 0x40a0c2dce041fba9 0x2522b60f4ea33076,
  Fr.mk 0x8ce16c235572575b 0x3418cad4f52b6c3f 0x5255075ddc957f83 0x23f0bee001b1029d,
  Fr.mk 0x66d9401093082d59 0x5d142633e9df905f 0xcaac2d44555ed568 0x2bc1ae8b8ddbb81f,
  Fr.mk 0x8011fcd6ad72205f 0x62371273a07b1fc9 0x7304507b8dba3ed1 0x0f9406b8296564a3,
  Fr.mk 0xcb126c8cd995f0a8 0x17e75b174a52ee4a 0x67b72998de90714e 0x2360a8eb0cc7defa,
  Fr.mk 0x6dcbbc2767f88948 0xb4815a5e96df8b00 0x804c803cbaef255e 0x15871a5cddead976,
  Fr.mk 0x4f957ccdeefb420f 0x362f4f54f7237954 0x0a8652dd2f3b1da0 0x193a56766998ee9e,
  Fr.mk 0xe4309805e777ae0f 0x3b2e63c8ad334834 0x2f9be56ff4fab170 0x2a394a43934f8698,
  Fr.mk 0xb4166e8876c0d142 0x892cd11223443ba7 0x3e8b635dcb345192 0x1859954cfeb8695f,
  Fr.mk 0x408d3819f4fed32b 0x2b11bc25d90bbdca 0x013444dbcb99f190 0x04e1181763050e58,
  Fr.mk 0x1f5e5552bfd05f23 0xb10eb82db08b5e8b 0x40c335ea64de8c5b 0x0fdb253dee83869d,
  Fr.mk 0xa9d7c5bae9b4f1c0 0x75f08686f1c08984 0xaa4efb623adead62 0x058cbe8a9a5027bd,
  Fr.mk 0xd15228b4cceca59a 0x23b4b83bef023ab0 0x497eadb1aeb1f52b 0x1382edce9971e186,
  Fr.mk 0xe1e6634601d9e8b5 0x7f61b8eb99f14b77 0x0819ca51fd11b0be 0x03464990f045c6ee,
  Fr.mk 0xaa5bc137aeb70a58 0x6fcab4605db2eb5a 0xfff33b41f98ff83c 0x23f7bfc8720dc296,
  Fr.mk 0x19636158bbaf62f2 0x18c3ffd5e1531a92 0x7e6e94e7f0e9decf 0x0a59a158e3eec211,
  Fr.mk 0xf4c23ed0075fd07b 0xe2c4eba065420af8 0xb58bf23b312ffd3c 0x06ec54c80381c052,
  Fr.mk 0x962f0ff9ed1f9d01 0xb09340f7a7bcb1b4 0x476b56648e867ec8 0x118872dc832e0eb5,
  Fr.mk 0x95e1906b520921b1 0x52e0b0f0e42d7fea 0x5ad5c7cba7ad59ed 0x13d69fa127d83416,
  Fr.mk 0xfd8a49f19f10c77b 0xde143942fb71dc55 0x70b1c6877a73d21b 0x169a177f63ea6812,
  Fr.mk 0xfb7e9a5a7450544d 0x3abeb032b922f66f 0xef42f287adce40d9 0x04ef51591c6ead97,
  Fr.mk 0xd5f45ee6dd0f69ec 0x19ec61805d4f03ce 0x0ecd7ca703fb2e3b 0x256e175a1dc07939,
  Fr.mk 0xa002813d3e2ceeb2 0x75cc360d3205dd2d 0xe5f2af412ff6004f 0x30102d28636abd5f,
  Fr.mk 0x1fd31be182fcc792 0x0443a3fa99bef4a3 0x1c0714bc73eb1bf4 0x10998e42dfcd3bbf,
  Fr.mk 0xecad76f879e36860 0x9f3362eaf4d582ef 0x25fa7d24b598a1d8 0x193edd8e9fcf3d76,
  Fr.mk 0xf2664d7aa51f0b5d 0xd1c7a561ce611425 0xd0368ce80b7b3347 0x18168afd34f2d915,
  Fr.mk 0x29e2e95b33ea6111 0xa328ec77bc33626e 0x0c017656ebe658b6 0x29383c01ebd3b6ab,
  Fr.mk 0x00bf573f9010c711 0x702db6e86fb76ab6 0xa1f4ae5e7771a64a 0x10646d2f2603de39,
  Fr.mk 0x64d0242dcb1117fb 0x2f90c25b40da7b38 0xf575f1395a55bf13 0x0beb5e07d1b27145,
  Fr.mk 0xdffbf018d96fa336 0x30f95bb2e54b59ab 0xdc0d3ecad62b5c88 0x16d685252078c133,
  Fr.mk 0xfd672dd62047f01a 0x0a555bbbec21ddfa 0x3c74154e0404b4b4 0x0a6abd1d833938f3,
  Fr.mk 0x70a6f19b34cf1860 0xb12dffeec4503172 0x8ea12a4c2dedc8fe 0x1a679f5d36eb7b5c,
  Fr.mk 0xfbc7592e3f1b93d6 0x26a423eada4e8f6f 0x3974d50e0ebfde47 0x0980fb233bd456c2,
  Fr.mk 0x03ebacb5c312c72b 0xcece3d5628c92820 0xbf1810af93a38fc0 0x161b42232e61b84c,
  Fr.mk 0xd09203db47de1a0b 0x493f09787f1564e5 0x950f7d47a60d5e6a 0x0ada10a90c7f0520,
  Fr.mk 0xb50ddb9af407f451 0xd3f07a8a2b4e121b 0x320345a29ac4238e 0x1a730d372310ba82,
  Fr.mk 0xfbda10ef58e8c556 0x908377feaba5c4df 0x817064c369dda7ea 0x2c8120f268ef054f,
  Fr.mk 0x6e7b8649a4968f70 0xb930e95313bcb73e 0xa57c00789c684217 0x1c7c8824f758753f,
  Fr.mk 0xb47b27fa3fd1cf77 0xf400ad8b491eb3f7 0x8e39e4077a74faa0 0x2cd9ed31f5f8691c,
  Fr.mk 0x854ae23918a22eea 0xa5e022ac321ca550 0xcf60d92f57618399 0x23ff4f9d46813457,
  Fr.mk 0xdff1ea58f180426d 0xaf5a2c5103529407 0xceece6405dddd9d0 0x09945a5d147a4f66,
  Fr.mk 0x8a6dd223ec6fc630 0x7c7da6eaa29d3f26 0xb67660c6b771b90f 0x188d9c528025d4c2,
  Fr.mk 0xe0c0d8ddf4f0f47f 0xdba7d926d3633595 0x81f68311431d8734 0x3050e37996596b7f,
  Fr.mk 0x9d829518d30afd78 0x6ceae5461e3f95d8 0x1600ca8102c35c42 0x15af1169396830a9,
  Fr.mk 0x04284da3320d8acc 0xdae933e351466b29 0xa06d9f37f873d985 0x1da6d09885432ea9,
  Fr.mk 0xe546ee411ddaa9cb 0x4e4fad3dbe658945 0xf5f8acf33921124e 0x2796ea90d269af29,
  Fr.mk 0x7cb0319e01d32d60 0x1e15612ec8e9304a 0x0325c8b3307742f0 0x202d7dd1da0f6b4b,
  Fr.mk 0xa29dace4c0f8be5f 0xa2d7f9c788f4c831 0x156a952ba263d672 0x096d6790d05bb759,
  Fr.mk 0x63798cb1447d25a4 0x438da23ce5b13e19 0x83808965275d877b 0x054efa1f65b0fce2,
  Fr.mk 0x64ccf6e18e4165f1 0xd8aa690113b2e148 0xdb3308c29802deb9 0x1b162f83d917e93e,
  Fr.mk 0xc5ceb745a0506edc 0xedfefc1466cc568e 0xfd9f1cdd2a0de39e 0x21e5241e12564dd6,
  Fr.mk 0x7b4349e10e4bdf08 0xcb73ab5f87e16192 0x226a80ee17b36abe 0x1cfb5662e8cf5ac9,
  Fr.mk 0x29c53f666eb24100 0x2c99af346220ac01 0xbae6d8d1ecb373b6 0x0f21177e302a771b,
  Fr.mk 0xbcef7e1f515c2320 0xc4236aede6290546 0xaffb0dd7f71b12be 0x1671522374606992,
  Fr.mk 0xd419d2a692cad870 0xbe2ec9e42c5cc8cc 0x2eb4cf24501bfad9 0x0fa3ec5b9488259c,
  Fr.mk 0x85e8c57b1ab54bba 0xd36edce85c648cc0 0x57cb266c1506080e 0x193c0e04e0bd2983,
  Fr.mk 0xce14ea2adaba68f8 0x9f6f7291cd406578 0x7e9128306dcbc3c9 0x102adf8ef74735a2,
  Fr.mk 0x40a6d0cb70c3eab1 0x316aa24bfbdd23ae 0xe2a54d6f1ad945b1 0x0fe0af7858e49859,
  Fr.mk 0xe8a5ea7344798d22 0x2da5f1daa9ebdefd 0x08536a2220843f4e 0x216f6717bbc7dedb,
  Fr.mk 0xf88e2e4228325161 0x3c23b2ac773c6b3e 0x4a3e694391918a1b 0x1da55cc900f0d21f
]

/-- Source `MDS_MATRIX`: the fixed 3x3 Poseidon MDS matrix from the source. -/
def MDS_MATRIX : List (List Fr) := [
  [Fr.mk 0xfedb68592ba8118b 0x94be7c11ad24378b 0xb2b70caf5c36a7b1 0x109b7f411ba0e4c9, Fr.mk 0xd6c64543dc4903e0 0x9314dc9fdbdeea55 0x6ae119424fddbcbc 0x16ed41e13bb9c0c6, Fr.mk 0x791a93b74e36736d 0xf706ab640ceb247b 0xf617e7dcbfe82e0d 0x2b90bba00fca0589],
  [Fr.mk 0xd62940bcde0bd771 0x2cc8fdd1415c3dde 0xb9c36c764379dbca 0x2969f27eed31a480, Fr.mk 0x29b2311687b1fe23 0xb89d743c8c7b9640 0x4c9871c832963dc1 0x2e2419f9ec02ec39, Fr.mk 0xc8aacc55a0f89bfa 0x148d4e109f5fb065 0x97315876690f053d 0x101071f0032379b6],
  [Fr.mk 0x326244ee65a1b1a7 0xe6cd79e28c5b3753 0x0d5f9e654638065c 0x143021ec686a3f33, Fr.mk 0xb16cdfabc8ee2911 0xd057e12e58e7d7b6 0x82a70eff08a6fd99 0x176cc029695ad025, Fr.mk 0x73279cd71d25d5e0 0xa644470307043f77 0x17ba7fee3802593f 0x19a3fc0a56702bf4]
]

/-- Round-constant lookup `ROUND_CONSTANTS[i]` (all uses are in range). -/
def rc (i : Nat) : Fr := ROUND_CONSTANTS.getD i Fr.ZERO

/-- MDS-matrix lookup `MDS_MATRIX[i][j]` (all uses are in range). -/
def mds (i j : Nat) : Fr := (MDS_MATRIX.getD i []).getD j Fr.ZERO

/-- The Poseidon sponge state: `state: [Fr; 3]` plus `round_idx` counter. -/
structure PoseidonState where
  s0 : Fr
  s1 : Fr
  s2 : Fr
  roundIdx : Nat
deriving DecidableEq, Repr

namespace Poseidon

/-- Source `Poseidon::new`. -/
def new : PoseidonState := ⟨Fr.ZERO, Fr.ZERO, Fr.ZERO, 0⟩

/-- Source `Poseidon::add_round_constants`: add constants `3·round_idx .. 3·round_idx+2`
to the three state elements and advance the round counter. -/
def addRoundConstants (st : PoseidonState) : PoseidonState :=
  let base := st.roundIdx * 3
  { s0 := st.s0.add (rc base)
    s1 := st.s1.add (rc (base + 1))
    s2 := st.s2.add (rc (base + 2))
    roundIdx := st.roundIdx + 1 }

/-- Source `Poseidon::full_sbox`: `x^5` on every state element. -/
def fullSbox (st : PoseidonState) : PoseidonState :=
  { st with s0 := st.s0.pow5, s1 := st.s1.pow5, s2 := st.s2.pow5 }

/-- Source `Poseidon::partial_sbox`: `x^5` on the first state element only. -/
def partialSbox (st : PoseidonState) : PoseidonState :=
  { st with s0 := st.s0.pow5 }

/-- Source `Poseidon::mds_mix`: `state[i] = Σ_j old[j]·MDS[i][j]`, accumulated from
`Fr::ZERO` in the source's order. -/
def mdsMix (st : PoseidonState) : PoseidonState :=
  let row := fun i =>
    ((Fr.ZERO.add (st.s0.mul (mds i 0))).add (st.s1.mul (mds i 1))).add
      (st.s2.mul (mds i 2))
  { st with s0 := row 0, s1 := row 1, s2 := row 2 }

/-- One full round: constants, full S-box, MDS. -/
def fullRound (st : PoseidonState) : PoseidonState := mdsMix (fullSbox (addRoundConstants st))

/-- One partial round: constants, partial S-box, MDS. -/
def partialRound (st : PoseidonState) : PoseidonState := mdsMix (partialSbox (addRoundConstants st))

/-- Iterated `n`-fold application, mirroring `for _ in 0..n`. -/
def iterApply (f : PoseidonState → PoseidonState) : Nat → PoseidonState → PoseidonState
  | 0, st => st
  | n + 1, st => iterApply f n (f st)

/-- Source `Poseidon::permute_first_full_rounds` (`RF / 2` full rounds). -/
def permuteFirstFullRounds (st : PoseidonState) : PoseidonState :=
  iterApply fullRound (POSEIDON_RF / 2) st

/-- Source `Poseidon::permute_partial_rounds` (`RP` partial rounds). -/
def permutePartialRounds (st : PoseidonState) : PoseidonState :=
  iterApply partialRound POSEIDON_RP st

/-- Source `Poseidon::permute_second_full_rounds` (`RF / 2` full rounds). -/
def permuteSecondFullRounds (st : PoseidonState) : PoseidonState :=
  iterApply fullRound (POSEIDON_RF / 2) st

/-- Source `Poseidon::permute`: first full rounds, partial rounds, second full rounds. -/
def permute (st : PoseidonState) : PoseidonState :=
  permuteSecondFullRounds (permutePartialRounds (permuteFirstFullRounds st))

/-- Source `Poseidon::hash2`: load `(0, a, b)` (slot 0 is the capacity, set to
`Fr::ZERO`), permute, return `state[0]`. -/
def hash2 (a b : Fr) : Fr :=
  (permute { new with s0 := Fr.ZERO, s1 := a, s2 := b }).s0

/-- Source `Poseidon::hash4`: two `hash2` calls on the input pairs and a third
`hash2` combining the two digests. -/
def hash4 (i0 i1 i2 i3 : Fr) : Fr :=
  hash2 (hash2 i0 i1) (hash2 i2 i3)

end Poseidon

/-- Formalisation of the specification's wording for the permutation
(§4.2 of the spec): a single pass over the 65 round indices `0..64`,
applying a full round when the index lies in the first or last four rounds
(`i < 4 ∨ 61 ≤ i`) and a partial round otherwise. -/
def specRoundStep (st : PoseidonState) (i : Nat) : PoseidonState :=
  if i < 4 ∨ 61 ≤ i then Poseidon.fullRound st else Poseidon.partialRound st

/-- Spec-worded permutation: fold the 65 rounds in order. -/
def specPermute (st : PoseidonState) : PoseidonState :=
  (List.range 65).foldl specRoundStep st

/-- Spec-worded `hash2` (§4.2): "load `(0, a, b)` into the 3-element state
(first slot is the capacity element, fixed to zero), run the permutation,
return state[0]". -/
def specHash2 (a b : Fr) : Fr :=
  (specPermute ⟨Fr.ZERO, a, b, 0⟩).s0

/-- Source `poseidon_hash_2` (byte API): convert, hash, convert back. -/
def poseidonHash2 (left right : Nat) : Nat :=
  (Poseidon.hash2 (Fr.fromBytes left) (Fr.fromBytes right)).toBytes

/-- Source `poseidon_hash_4` (byte API). -/
def poseidonHash4 (i0 i1 i2 i3 : Nat) : Nat :=
  (Poseidon.hash4 (Fr.fromBytes i0) (Fr.fromBytes i1) (Fr.fromBytes i2)
    (Fr.fromBytes i3)).toBytes


/-! ## Merkle accumulator

The instruction code (`programs/stealth/src/instructions/private_deposit.rs`)
is in the sources; the small helper module `crate::crypto::merkle` it imports
(`MERKLE_DEPTH`, `merkle_hash_2`, `compute_zero_hashes_poseidon`) is declared
in `crypto/mod.rs` but its file is not present under `src/`, so those three
items are modelled from the spec (§4.3). -/

/-- Modelled from the spec: the tree depth `D` of the missing
`crypto::merkle::MERKLE_DEPTH`; "Fixed depth `D` (source uses 20)". -/
def MERKLE_DEPTH : Nat := 20

/-- Modelled from the spec: the missing `crypto::merkle::merkle_hash_2` —
Merkle nodes are combined with the pool's only hash primitive, Poseidon
(`PoseidonHash ... the pool's only hash primitive (for ... Merkle nodes)`). -/
def merkleHash2 (left right : Nat) : Nat := poseidonHash2 left right

/-- Modelled from the spec: zero-subtree hashes for an arbitrary node-hash
function — `Z[0] = 0`, `Z[i] = Poseidon(Z[i-1], Z[i-1])`
(`compute_zero_hashes_poseidon`, kept generic in the hash `h`). -/
def zeroHashesWith (h : Nat → Nat → Nat) : Nat → Nat
  | 0 => 0
  | i + 1 => h (zeroHashesWith h i) (zeroHashesWith h i)

/-- Modelled from the spec: the missing
`crypto::merkle::compute_zero_hashes_poseidon`, instantiated with Poseidon. -/
def zeroHashesPoseidon (i : Nat) : Nat := zeroHashesWith merkleHash2 i

/-- Source `ROOT_HISTORY_SIZE` (`state/privacy_pool.rs`). -/
def ROOT_HISTORY_SIZE : Nat := 30

/-- Source `PrivacyPool` account state (`state/privacy_pool.rs`).  The `authority`
pubkey and the PDA `bump` play no role in any claim and are omitted;
`filled_subtrees` has length `MERKLE_DEPTH` and `root_history` length
`ROOT_HISTORY_SIZE`. -/
structure PrivacyPool where
  denomination : Nat
  merkle_root : Nat
  next_leaf_index : Nat
  filled_subtrees : List Nat
  total_deposited : Nat
  total_withdrawn : Nat
  deposit_count : Nat
  withdrawal_count : Nat
  is_active : Bool
  root_history : List Nat
  root_history_index : Nat
deriving DecidableEq, Repr

/-- Source `PrivacyPool::is_valid_root`: the current root matches, or some history
entry equals the queried root and is not the all-zero array. -/
def isValidRoot (pool : PrivacyPool) (root : Nat) : Bool :=
  if pool.merkle_root == root then true
  else pool.root_history.any fun historical => historical == root && historical != 0

/-- Source `PrivacyPool::save_root_to_history`: write the current root at
`root_history_index` and advance the index modulo `ROOT_HISTORY_SIZE`. -/
def saveRootToHistory (pool : PrivacyPool) : PrivacyPool :=
  { pool with
    root_history := pool.root_history.set pool.root_history_index pool.merkle_root
    root_history_index := (pool.root_history_index + 1) % ROOT_HISTORY_SIZE }

/-- One level of the loop in `compute_new_root_zc`
(`instructions/private_deposit.rs`): state is
`(filled_subtrees, current_index, current_hash)`; an even index stores the
running hash as the level's filled subtree and pairs it with `zeros[i]` on the
right, an odd index pairs the stored filled subtree on the left; the index is
halved.  Generic in the node hash `h` and the zero-hash table `zeros`. -/
def merkleLevelStep (h : Nat → Nat → Nat) (zeros : Nat → Nat) (i : Nat)
    (st : List Nat × Nat × Nat) : List Nat × Nat × Nat :=
  if st.2.1 % 2 == 0 then
    (st.1.set i st.2.2, st.2.1 / 2, h st.2.2 (zeros i))
  else
    (st.1, st.2.1 / 2, h (st.1.getD i 0) st.2.2)

/-- Source `compute_new_root_zc`: run the level loop for `i in 0..MERKLE_DEPTH`,
returning the updated filled subtrees and the new root. -/
def computeNewRootZC (h : Nat → Nat → Nat) (zeros : Nat → Nat)
    (subtrees : List Nat) (commitment leaf_index : Nat) : List Nat × Nat :=
  let r := (List.range MERKLE_DEPTH).foldl
    (fun acc i => merkleLevelStep h zeros i acc) (subtrees, leaf_index, commitment)
  (r.1, r.2.2)

/-- Source `insert_commitment_to_tree_zc`: save the current root to the history,
recompute the root from `next_leaf_index`, store it and advance the leaf
index.  Returns the updated pool and the leaf index used. -/
def insertCommitmentToTreeZC (h : Nat → Nat → Nat) (zeros : Nat → Nat)
    (pool : PrivacyPool) (commitment : Nat) : PrivacyPool × Nat :=
  let leaf_index := pool.next_leaf_index
  let pool := saveRootToHistory pool
  let r := computeNewRootZC h zeros pool.filled_subtrees commitment leaf_index
  ({ pool with
      filled_subtrees := r.1
      merkle_root := r.2
      next_leaf_index := leaf_index + 1 }, leaf_index)

/-- The pool-state part of `insert_commitment_to_tree_zc`. -/
def insertLeaf (h : Nat → Nat → Nat) (zeros : Nat → Nat)
    (pool : PrivacyPool) (commitment : Nat) : PrivacyPool :=
  (insertCommitmentToTreeZC h zeros pool commitment).1

/-- Inserting a whole leaf sequence, one `insert_commitment_to_tree_zc` per
leaf (one `private_deposit` instruction per commitment). -/
def insertAll (h : Nat → Nat → Nat) (zeros : Nat → Nat)
    (pool : PrivacyPool) (leaves : List Nat) : PrivacyPool :=
  leaves.foldl (insertLeaf h zeros) pool

/-- The pool produced by `initialize_pool` (`instructions/private_deposit.rs`):
root `zeros[MERKLE_DEPTH]`, empty counters, filled subtrees `zeros[0..D-1]`,
zeroed root history, index 0, active. -/
def freshPool (zeros : Nat → Nat) (denomination : Nat) : PrivacyPool :=
  { denomination := denomination
    merkle_root := zeros MERKLE_DEPTH
    next_leaf_index := 0
    filled_subtrees := (List.range MERKLE_DEPTH).map zeros
    total_deposited := 0
    total_withdrawn := 0
    deposit_count := 0
    withdrawal_count := 0
    is_active := true
    root_history := List.replicate ROOT_HISTORY_SIZE 0
    root_history_index := 0 }

/-- Formalisation of the spec's wording for `insert` (§4.3): "walk from leaf
index bit 0 upward; at each level, if the current index is even, store the
running hash as the level's filled subtree and combine with `Z[level]`; if
odd, combine with the stored filled subtree" — written as direct recursion
over the remaining levels, `lvl` being the current level. -/
def specWalk (h : Nat → Nat → Nat) (zeros : Nat → Nat) :
    Nat → Nat → List Nat → Nat → Nat → List Nat × Nat
  | 0, _, subtrees, _, cur => (subtrees, cur)
  | n + 1, lvl, subtrees, idx, cur =>
    if idx % 2 == 0 then
      specWalk h zeros n (lvl + 1) (subtrees.set lvl cur) (idx / 2) (h cur (zeros lvl))
    else
      specWalk h zeros n (lvl + 1) subtrees (idx / 2) (h (subtrees.getD lvl 0) cur)

/-- Spec-worded root computation: walk all `MERKLE_DEPTH` levels from level 0. -/
def specComputeRoot (h : Nat → Nat → Nat) (zeros : Nat → Nat)
    (subtrees : List Nat) (commitment leaf_index : Nat) : List Nat × Nat :=
  specWalk h zeros MERKLE_DEPTH 0 subtrees leaf_index commitment


/-! ## Errors (`error.rs`, restricted to the variants the embedded paths use) -/

/-- The `StealthError` variants reachable from the embedded instructions
(plus `TransferFailed` standing for a failed system-program transfer CPI). -/
inductive StealthError where
  | PoolNotActive
  | AmountMustMatchDenomination
  | InvalidMerkleRoot
  | InvalidEphemeralKey
  | InvalidScanPubkey
  | InvalidSpendPubkey
  | CommitmentMismatch
  | InvalidProof
  | InsufficientPoolBalance
  | ArithmeticOverflow
  | NotInExecutionWindow
  | DenominationMismatch
  | RelayerFeeTooHigh
  | RelayerRequired
  | CommitmentAlreadyExecuted
  | CommitmentCancelled
  | TransferFailed
  | InvalidProofInputs
deriving DecidableEq, Repr

/-- Success test on `Except`, as a Bool, used to state success characterisations. -/
def exceptIsOk {ε α : Type} : Except ε α → Bool
  | .ok _ => true
  | .error _ => false

/-! ## Private withdrawal (`instructions/private_withdraw.rs`) -/

/-- Source `WithdrawPublicInputs`: the circuit's public inputs (each a 32-byte
value). -/
structure WithdrawPublicInputs where
  merkle_root : Nat
  nullifier_hash : Nat
  stealth_address : Nat
  ephemeral_pubkey : Nat
  scan_pubkey : Nat
  spend_pubkey : Nat
  stealth_commitment : Nat
deriving DecidableEq, Repr

/-- Source `NullifierRecord` (`state/privacy_pool.rs`; the PDA bump is omitted). -/
structure NullifierRecord where
  nullifier_hash : Nat
  spent_at : Int
deriving DecidableEq, Repr

/-- Source `StealthAnnouncement` fields set by `create_stealth_announcement`
(`token_mint` is the default pubkey, i.e. zero). -/
structure StealthAnnouncement where
  ephemeral_pubkey : Nat
  stealth_address : Nat
  commitment : Nat
  amount : Nat
  token_mint : Nat
  slot : Nat
  timestamp : Int
deriving DecidableEq, Repr

/-- The lamport balances touched by `private_withdraw`: the pool account, the
stealth (recipient) account and the relayer-fee destination
(`relayer_fee_recipient` when present, otherwise the relayer signer — both
are folded into one balance here). -/
structure Lamports where
  pool : Nat
  stealth_address : Nat
  relayer : Nat
deriving DecidableEq, Repr

/-- Result of a successful `private_withdraw`. -/
structure WithdrawOutcome where
  pool : PrivacyPool
  balances : Lamports
  nullifier : NullifierRecord
  announcement : StealthAnnouncement
deriving DecidableEq, Repr

/-- Source `verify_stealth_commitment`: the three `validate_curve_point` checks
(curve arithmetic is external, passed as `validPoint`) and the SHA-256
commitment recomputation (`compute_commitment` from `state/announcement.rs`
is a SHA-256 of domain-separated inputs; SHA-256 is external, passed as
`commitHash` taking ephemeral, scan, spend and stealth-address bytes). -/
def verifyStealthCommitment (validPoint : Nat → Bool)
    (commitHash : Nat → Nat → Nat → Nat → Nat)
    (inputs : WithdrawPublicInputs) : Except StealthError Unit :=
  if ¬ validPoint inputs.ephemeral_pubkey then .error .InvalidEphemeralKey
  else if ¬ validPoint inputs.scan_pubkey then .error .InvalidScanPubkey
  else if ¬ validPoint inputs.spend_pubkey then .error .InvalidSpendPubkey
  else if inputs.stealth_commitment ≠
      commitHash inputs.ephemeral_pubkey inputs.scan_pubkey inputs.spend_pubkey
        inputs.stealth_address then .error .CommitmentMismatch
  else .ok ()

/-- Source `transfer_withdrawal_funds_zc`: saturating-subtract the relayer fee (Nat
subtraction is saturating, matching `u64::saturating_sub`), require the pool
balance to cover the full amount, debit the pool by `amount`, credit the
stealth address with `amount - fee` and, when the fee is positive, credit the
fee destination (`pay_relayer_fee_zc`).  `u64` additions wrap. -/
def transferWithdrawalFundsZC (bal : Lamports) (amount relayer_fee : Nat) :
    Except StealthError Lamports :=
  let amount_after := amount - relayer_fee
  if bal.pool < amount then .error .InsufficientPoolBalance
  else
    .ok { pool := bal.pool - amount
          stealth_address := (bal.stealth_address + amount_after) % U64
          relayer := if relayer_fee > 0 then (bal.relayer + relayer_fee) % U64
                     else bal.relayer }

/-- Source `private_withdraw`: the full handler.  The oracle-attested ZK
verification (`verify_proof_with_sysvar`, Ed25519 sysvar introspection) is an
external collaborator and enters as the boolean `zkAccepts` (its `Err` is the
handler's error path). -/
def privateWithdraw (validPoint : Nat → Bool)
    (commitHash : Nat → Nat → Nat → Nat → Nat) (zkAccepts : Bool)
    (pool : PrivacyPool) (bal : Lamports) (denomination : Nat)
    (inputs : WithdrawPublicInputs) (relayer_fee : Nat) (now : Int)
    (slot : Nat) : Except StealthError WithdrawOutcome := do
  -- 1. pool active, denomination matches, Merkle root valid
  if ¬ pool.is_active then throw .PoolNotActive
  if pool.denomination ≠ denomination then throw .AmountMustMatchDenomination
  if ¬ isValidRoot pool inputs.merkle_root then throw .InvalidMerkleRoot
  let amount := pool.denomination
  -- 2. stealth-address commitment
  verifyStealthCommitment validPoint commitHash inputs
  -- 3. ZK proof (oracle attestation + Ed25519 introspection)
  if ¬ zkAccepts then throw .InvalidProof
  -- 4. mark nullifier as used
  let nullifier : NullifierRecord :=
    { nullifier_hash := inputs.nullifier_hash, spent_at := now }
  -- 5. transfer the fixed denomination
  let bal ← transferWithdrawalFundsZC bal amount relayer_fee
  -- 6. announcement for recipient scanning
  let announcement : StealthAnnouncement :=
    { ephemeral_pubkey := inputs.ephemeral_pubkey
      stealth_address := inputs.stealth_address
      commitment := inputs.stealth_commitment
      amount := amount
      token_mint := 0
      slot := slot
      timestamp := now }
  -- 7. pool stats (checked u64 additions)
  if pool.total_withdrawn + amount ≥ U64 then throw .ArithmeticOverflow
  if pool.withdrawal_count + 1 ≥ U64 then throw .ArithmeticOverflow
  let pool := { pool with
    total_withdrawn := pool.total_withdrawn + amount
    withdrawal_count := pool.withdrawal_count + 1 }
  return { pool := pool, balances := bal, nullifier := nullifier,
           announcement := announcement }


/-! ## Commit-reveal withdrawal
(`state/withdrawal_commitment.rs`, `instructions/commit_reveal.rs`) -/

/-- Source `WithdrawalCommitment` account state (the owner pubkey is bound by the
PDA seeds and checked by an account constraint; the bump is omitted). -/
structure WithdrawalCommitment where
  owner : Nat
  commitment_hash : Nat
  commit_slot : Nat
  commit_timestamp : Int
  min_delay_seconds : Int
  max_delay_seconds : Int
  denomination : Nat
  executed : Bool
  cancelled : Bool
deriving DecidableEq, Repr

/-- Source `WithdrawalCommitment::ABSOLUTE_MIN_DELAY` (30 minutes). -/
def ABSOLUTE_MIN_DELAY : Int := 1800
/-- Source `WithdrawalCommitment::ABSOLUTE_MAX_DELAY` (7 days). -/
def ABSOLUTE_MAX_DELAY : Int := 604800

/-- Source `WithdrawalCommitment::can_execute`: not executed, not cancelled, and
`min_delay ≤ elapsed ≤ max_delay` where `elapsed = now - commit_timestamp`. -/
def canExecute (c : WithdrawalCommitment) (now : Int) : Bool :=
  if c.executed || c.cancelled then false
  else
    let elapsed := now - c.commit_timestamp
    elapsed ≥ c.min_delay_seconds && elapsed ≤ c.max_delay_seconds

/-- Source `WithdrawalCommitment::is_expired`. -/
def isExpired (c : WithdrawalCommitment) (now : Int) : Bool :=
  now - c.commit_timestamp > c.max_delay_seconds

/-- The lamport balances touched by `reveal_and_withdraw`. -/
structure RevealBalances where
  pool : Nat
  recipient : Nat
  relayer : Nat
deriving DecidableEq, Repr

/-- Result of a successful `reveal_and_withdraw`. -/
structure RevealOutcome where
  commitment : WithdrawalCommitment
  pool : PrivacyPool
  balances : RevealBalances
deriving DecidableEq, Repr

/-- Source `reveal_and_withdraw` (`instructions/commit_reveal.rs`) together with the
account constraints of `RevealWithdrawal` (`!executed`, `!cancelled`; the
owner/seeds constraints identify the account and are outside the model).
`compute_withdrawal_commitment` is a domain-separated SHA-256 of
`(proof_hash, recipient, user_random, nonce)`; SHA-256 is external and enters
as the parameter `sha`.  A system-program transfer fails when the source
balance is insufficient.  On success the commitment is marked executed, the
recipient receives `denomination - relayer_fee` (saturating), the relayer
receives the fee, and the pool's `deposit_count` is saturating-decremented. -/
def revealAndWithdraw (sha : Nat → Nat → Nat → Nat → Nat)
    (c : WithdrawalCommitment) (pool : PrivacyPool) (bal : RevealBalances)
    (hasRelayer : Bool) (denomination : Nat)
    (proof_hash user_random nonce recipient : Nat) (relayer_fee : Nat)
    (now : Int) : Except StealthError RevealOutcome := do
  -- account constraints
  if c.executed then throw .CommitmentAlreadyExecuted
  if c.cancelled then throw .CommitmentCancelled
  -- timing window
  if ¬ canExecute c now then throw .NotInExecutionWindow
  -- recompute and compare the commitment hash
  if sha proof_hash recipient user_random nonce ≠ c.commitment_hash then
    throw .CommitmentMismatch
  -- denomination must match
  if denomination ≠ c.denomination then throw .DenominationMismatch
  -- mark as executed before the transfer
  let c := { c with executed := true }
  let withdrawal_amount := denomination
  let recipient_amount := withdrawal_amount - relayer_fee
  -- relayer-fee validation
  if relayer_fee > 0 then
    if relayer_fee > withdrawal_amount / 10 then throw .RelayerFeeTooHigh
    if ¬ hasRelayer then throw .RelayerRequired
  -- transfer the main amount to the recipient
  if bal.pool < recipient_amount then throw .TransferFailed
  let bal := { bal with
    pool := bal.pool - recipient_amount
    recipient := (bal.recipient + recipient_amount) % U64 }
  -- transfer the relayer fee if applicable
  let bal ← (if relayer_fee > 0 && hasRelayer then
      if bal.pool < relayer_fee then throw .TransferFailed
      else pure { bal with
        pool := bal.pool - relayer_fee
        relayer := (bal.relayer + relayer_fee) % U64 }
    else pure bal)
  -- pool state update
  let pool := { pool with deposit_count := pool.deposit_count - 1 }
  return { commitment := c, pool := pool, balances := bal }


/-! ## Groth16 verification (`programs/stealth/src/zk/groth16.rs`)

A G1 point (`[u8; 64]`, `x || y`, each coordinate big-endian) is encoded as
`xVal · 2^256 + yVal`; a G2 point (`[u8; 128]`) likewise as the big-endian
value of the whole array.  The all-zero array is `0` in either encoding.
The `alt_bn128` syscalls are external collaborators and enter as the
parameters `g1mulOp`, `g1addOp` and `pairingOp` (returning `none` for their
`Err` case; `pairingOp` yields the 32-byte big-endian result value). -/

/-- The 32 bytes of `SCALAR_FIELD_MODULUS` exactly as written in the source
(big-endian).  (The source's doc comment calls this the scalar-field modulus
`r`, but the byte string is the BN254 *base*-field modulus `q`.) -/
def SCALAR_FIELD_MODULUS : List Nat :=
  [0x30, 0x64, 0x4e, 0x72, 0xe1, 0x31, 0xa0, 0x29,
   0xb8, 0x50, 0x45, 0xb6, 0x81, 0x81, 0x58, 0x5d,
   0x97, 0x81, 0x6a, 0x91, 0x68, 0x71, 0xca, 0x8d,
   0x3c, 0x20, 0x8c, 0x16, 0xd8, 0x7c, 0xfd, 0x47]

/-- The BN254 base-field modulus `q` as a number (the value of both
`SCALAR_FIELD_MODULUS` and the `p_le` table of `negate_g1`). -/
def qBN254 : Nat :=
  0x30644e72e131a029b85045b68181585d97816a916871ca8d3c208c16d87cfd47

/-- The 32 big-endian bytes of a 32-byte value. -/
def bytesBE32 (n : Nat) : List Nat :=
  (List.range 32).map fun i => n / 2 ^ (8 * (31 - i)) % 256

/-- The byte-comparison loop of `is_valid_scalar`: big-endian lexicographic
`<`, with equality at the end of both lists yielding `false`. -/
def ltBytes : List Nat → List Nat → Bool
  | a :: as, m :: ms =>
    if a < m then true else if a > m then false else ltBytes as ms
  | _, _ => false

/-- Source `is_valid_scalar`: the 32-byte scalar is lexicographically below the
stored modulus bytes (equality is invalid). -/
def isValidScalar (scalar : Nat) : Bool :=
  ltBytes (bytesBE32 scalar) SCALAR_FIELD_MODULUS

/-- Source `negate_g1`: keep the `x` half, replace `y` with `p - y` computed as a
32-byte borrow subtraction whose final borrow is discarded
(i.e. `(q - y) mod 2^256`). -/
def negateG1 (point : Nat) : Nat :=
  let x := point / 2 ^ 256
  let y := point % 2 ^ 256
  x * 2 ^ 256 + (qBN254 + 2 ^ 256 - y) % 2 ^ 256

/-- Source `Groth16Proof`. -/
structure Groth16Proof where
  pi_a : Nat
  pi_b : Nat
  pi_c : Nat
deriving DecidableEq, Repr

/-- Source `VerificationKey` (`zk/types.rs`). -/
structure VerificationKey where
  alpha : Nat
  beta : Nat
  gamma : Nat
  delta : Nat
  ic : List Nat
deriving DecidableEq, Repr

/-- The `vk_x` accumulation loop of `verify_groth16`: for each
`(public_input, IC[i+1])` pair, scalar-multiply then add; a failing syscall
aborts with `none` (the caller turns that into `Ok(false)`). -/
def vkxLoop (g1mulOp g1addOp : Nat → Nat → Option Nat) :
    Nat → List (Nat × Nat) → Option Nat
  | acc, [] => some acc
  | acc, (input, icPoint) :: rest => do
    let scaled ← g1mulOp icPoint input
    let acc ← g1addOp acc scaled
    vkxLoop g1mulOp g1addOp acc rest

/-- Source `verify_groth16` (the `target_os = "solana"` path): IC-length check
(`Err` on mismatch), per-input scalar-range check (`Ok(false)` on failure),
all-zero proof-point check (`Ok(false)`), `vk_x` accumulation and the
four-pair pairing check; any syscall failure yields `Ok(false)`, and the
pairing result is valid exactly when its 32-byte value is 1. -/
def verifyGroth16 (g1mulOp g1addOp : Nat → Nat → Option Nat)
    (pairingOp : List Nat → Option Nat) (proof : Groth16Proof)
    (public_inputs : List Nat) (vk : VerificationKey) :
    Except StealthError Bool :=
  if public_inputs.length + 1 ≠ vk.ic.length then .error .InvalidProofInputs
  else if public_inputs.any (fun input => ¬ isValidScalar input) then .ok false
  else if proof.pi_a == 0 || proof.pi_b == 0 || proof.pi_c == 0 then .ok false
  else
    match vkxLoop g1mulOp g1addOp (vk.ic.headD 0)
        (public_inputs.zip (vk.ic.drop 1)) with
    | none => .ok false
    | some vk_x =>
      match pairingOp [negateG1 proof.pi_a, proof.pi_b, vk.alpha, vk.beta,
          vk_x, vk.gamma, proof.pi_c, vk.delta] with
      | none => .ok false
      | some result => .ok (result == 1)


/-! ## DKSAP stealth addresses (`cli/src/crypto.rs`)

The Edwards-curve arithmetic lives in the external `curve25519-dalek` crate,
so it enters abstractly: `Point` stands for the prime-order subgroup
generated by the basepoint `G`, an additive commutative group with a module
structure over the scalar ring `R` (for ed25519, `R = ℤ/ℓ` for the prime
group order `ℓ`, so `R` is a commutative ring); `compress`/`decompress` are
the point encoding (with `decompress ∘ compress = some`, as for dalek's
canonical encodings), and `hashToScalar` is the domain-separated
SHA-256-to-scalar map applied to a compressed point.  The sender's ephemeral
scalar is drawn from the OS RNG; it enters as the argument `r`. -/

/-- Source `StealthKeys`: scan/spend secret scalars with their derived public
points (`pubkey = secret·G` is the validity invariant, stated as a
hypothesis where needed). -/
structure StealthKeys (R PubKey : Type) where
  scan_secret : R
  spend_secret : R
  scan_pubkey : PubKey
  spend_pubkey : PubKey

/-- Source `StealthKeys::from_secrets` (also the shape produced by `generate` and
`from_mnemonic`): derive both public keys as `secret·G` compressed. -/
def StealthKeys.fromSecrets {R Point PubKey : Type} [CommRing R]
    [AddCommGroup Point] [Module R Point] (G : Point)
    (compress : Point → PubKey) (scan_secret spend_secret : R) :
    StealthKeys R PubKey :=
  ⟨scan_secret, spend_secret, compress (scan_secret • G),
    compress (spend_secret • G)⟩

/-- Source `StealthAddressComputation`: sender-side result. -/
structure StealthAddressComputation (R PubKey : Type) where
  stealth_pubkey : PubKey
  ephemeral_pubkey : PubKey
  ephemeral_secret : R

/-- Source `ScanResult`: recipient-side result with the recovered spending scalar. -/
structure ScanResult (R PubKey : Type) where
  stealth_address : PubKey
  spending_key : R

/-- Source `compute_stealth_address` (sender side): ephemeral key `R = r·G`,
shared secret `r·S` from the decompressed scan key, `h = H(compress shared)`,
stealth point `B + h·G` from the decompressed spend key; `none` when either
recipient key fails to decompress. -/
def computeStealthAddress {R Point PubKey : Type} [CommRing R]
    [AddCommGroup Point] [Module R Point] (G : Point)
    (compress : Point → PubKey) (decompress : PubKey → Option Point)
    (hashToScalar : PubKey → R) (r : R) (scan_pubkey spend_pubkey : PubKey) :
    Option (StealthAddressComputation R PubKey) := do
  let ephemeral_pubkey := compress (r • G)
  let scanPt ← decompress scan_pubkey
  let shared := r • scanPt
  let h := hashToScalar (compress shared)
  let spendPt ← decompress spend_pubkey
  return ⟨compress (spendPt + h • G), ephemeral_pubkey, r⟩

/-- Source `scan_payment` (recipient side): shared secret `s·R` from the
decompressed ephemeral key, `h = H(compress shared)`, expected stealth point
`B + h·G`; on a (constant-time) match the spending scalar `b + h` is
returned. -/
def scanPayment {R Point PubKey : Type} [CommRing R] [AddCommGroup Point]
    [Module R Point] [DecidableEq PubKey] (G : Point)
    (compress : Point → PubKey) (decompress : PubKey → Option Point)
    (hashToScalar : PubKey → R) (keys : StealthKeys R PubKey)
    (ephemeral_pubkey payment_address : PubKey) :
    Option (ScanResult R PubKey) := do
  let ephPt ← decompress ephemeral_pubkey
  let shared := keys.scan_secret • ephPt
  let h := hashToScalar (compress shared)
  let spendPt ← decompress keys.spend_pubkey
  let expected := compress (spendPt + h • G)
  if expected = payment_address then
    return ⟨payment_address, keys.spend_secret + h⟩
  else none


/-! ## Scenario and fixture definitions used by the claim theorems -/

/-- The failing input for the field multiplication: the canonical field
element `2^128` (limbs `[0, 0, 1, 0]`). -/
def frTwoPow128 : Fr := ⟨0, 0, 1, 0⟩

/-- The pool after `k` single-leaf insertions of `leaf 0, …, leaf (k-1)` into
a fresh pool, for node hash `h`, zero table `zeros`, denomination `d`. -/
def stateAt (h : Nat → Nat → Nat) (zeros : Nat → Nat) (d : Nat)
    (leaf : Nat → Nat) : Nat → PrivacyPool
  | 0 => freshPool zeros d
  | k + 1 => insertLeaf h zeros (stateAt h zeros d leaf k) (leaf k)

/-- The Merkle root current after `k` insertions. -/
def rootAt (h : Nat → Nat → Nat) (zeros : Nat → Nat) (d : Nat)
    (leaf : Nat → Nat) (k : Nat) : Nat :=
  (stateAt h zeros d leaf k).merkle_root

/-- Concrete key set over `ZMod 7` used to witness the DKSAP round trip. -/
def keys7 : StealthKeys (ZMod 7) (ZMod 7) :=
  StealthKeys.fromSecrets (1 : ZMod 7) id 2 3

/-- A concrete active 1-SOL pool whose current root is `777`, holding five
deposits. -/
def wpool : PrivacyPool :=
  { denomination := 1000000000
    merkle_root := 777
    next_leaf_index := 5
    filled_subtrees := List.replicate MERKLE_DEPTH 0
    total_deposited := 5000000000
    total_withdrawn := 0
    deposit_count := 5
    withdrawal_count := 0
    is_active := true
    root_history := List.replicate ROOT_HISTORY_SIZE 0
    root_history_index := 5 }

/-- Concrete public inputs for a withdrawal from `wpool` (root matches the
pool's current root; the commitment matches the constant-zero hash oracle). -/
def wInputs : WithdrawPublicInputs :=
  { merkle_root := 777
    nullifier_hash := 42
    stealth_address := 9
    ephemeral_pubkey := 8
    scan_pubkey := 7
    spend_pubkey := 6
    stealth_commitment := 0 }

/-- Concrete SHA-256 stand-in used in commit-reveal fixtures. -/
def shaFix (a b c d : Nat) : Nat := a + b + c + d

/-- A concrete pending withdrawal commitment: committed at time 1000 for a
1-hour–24-hour window, hash bound to `shaFix 11 5 22 33 = 71`
(proof-hash 11, recipient 5, user-random 22, nonce 33). -/
def cCommit : WithdrawalCommitment :=
  { owner := 1
    commitment_hash := 71
    commit_slot := 0
    commit_timestamp := 1000
    min_delay_seconds := 3600
    max_delay_seconds := 86400
    denomination := 1000000000
    executed := false
    cancelled := false }

/-- Concrete balances for the commit-reveal fixtures. -/
def rbal : RevealBalances := { pool := 2000000000, recipient := 0, relayer := 0 }


/-! ## Claim theorems -/

/-- Claim C1: For every valid stealth key pair (both public keys derived from
the secrets) and every ephemeral scalar `r`, the sender-side
`compute_stealth_address` succeeds, the recipient-side `scan_payment` applied
to its ephemeral key and stealth address returns `Some`, and the recovered
spending scalar `spend_secret + H(shared_secret)` multiplied by the basepoint
compresses to exactly the computed stealth public key. -/
theorem dksap_roundtrip {R Point PubKey : Type} [CommRing R]
    [AddCommGroup Point] [Module R Point] [DecidableEq PubKey] (G : Point)
    (compress : Point → PubKey) (decompress : PubKey → Option Point)
    (hashToScalar : PubKey → R)
    (hdc : ∀ P : Point, decompress (compress P) = some P)
    (keys : StealthKeys R PubKey)
    (hscan : keys.scan_pubkey = compress (keys.scan_secret • G))
    (hspend : keys.spend_pubkey = compress (keys.spend_secret • G))
    (r : R) :
    ∃ c : StealthAddressComputation R PubKey,
      computeStealthAddress G compress decompress hashToScalar r
          keys.scan_pubkey keys.spend_pubkey = some c ∧
      ∃ res : ScanResult R PubKey,
        scanPayment G compress decompress hashToScalar keys
            c.ephemeral_pubkey c.stealth_pubkey = some res ∧
        res.spending_key = keys.spend_secret +
          hashToScalar (compress ((r * keys.scan_secret) • G)) ∧
        compress (res.spending_key • G) = c.stealth_pubkey := by
  have hsh : keys.scan_secret • (r • G) = r • (keys.scan_secret • G) := by
    rw [smul_smul, smul_smul, mul_comm]
  refine ⟨⟨compress (keys.spend_secret • G +
      hashToScalar (compress (r • (keys.scan_secret • G))) • G),
      compress (r • G), r⟩, ?_, ?_⟩
  · simp [computeStealthAddress, hscan, hspend, hdc]
  · refine ⟨⟨compress (keys.spend_secret • G +
        hashToScalar (compress (r • (keys.scan_secret • G))) • G),
        keys.spend_secret +
          hashToScalar (compress (r • (keys.scan_secret • G)))⟩, ?_, ?_, ?_⟩
    · simp [scanPayment, hdc, hspend, hsh]
    · rw [smul_smul]
    · rw [add_smul]

/-- Witness for claim C1: `dksap_roundtrip` applied at a concrete instance
(scalars and points in `ZMod 7`, identity compression, basepoint 1,
secrets 2 and 3, ephemeral scalar 4). -/
theorem dksap_roundtrip_witness :
    ∃ c : StealthAddressComputation (ZMod 7) (ZMod 7),
      computeStealthAddress (1 : ZMod 7) id some (fun x => x) 4
          keys7.scan_pubkey keys7.spend_pubkey = some c ∧
      ∃ res : ScanResult (ZMod 7) (ZMod 7),
        scanPayment (1 : ZMod 7) id some (fun x => x) keys7
            c.ephemeral_pubkey c.stealth_pubkey = some res ∧
        res.spending_key = keys7.spend_secret +
          (fun x => x) (id ((4 * keys7.scan_secret) • (1 : ZMod 7))) ∧
        id (res.spending_key • (1 : ZMod 7)) = c.stealth_pubkey :=
  dksap_roundtrip (1 : ZMod 7) id some (fun x => x) (fun _ => rfl) keys7
    rfl rfl 4

/-- Folding the spec's round step over `n` consecutive indices that all meet
the full-round condition is `n` iterated full rounds. -/
theorem foldl_spec_full (n : Nat) :
    ∀ (a : Nat) (st : PoseidonState),
      (∀ i, a ≤ i → i < a + n → (i < 4 ∨ 61 ≤ i)) →
      (List.range' a n).foldl specRoundStep st =
        Poseidon.iterApply Poseidon.fullRound n st := by
  induction n with
  | zero => intro a st _; rfl
  | succ m ih =>
    intro a st h
    rw [List.range'_succ, List.foldl_cons]
    have hstep : specRoundStep st a = Poseidon.fullRound st := by
      unfold specRoundStep
      rw [if_pos (h a le_rfl (by omega))]
    rw [hstep]
    exact ih (a + 1) (Poseidon.fullRound st) fun i h1 h2 => h i (by omega) (by omega)

/-- Folding the spec's round step over `n` consecutive indices that all fail
the full-round condition is `n` iterated partial rounds. -/
theorem foldl_spec_partialRounds (n : Nat) :
    ∀ (a : Nat) (st : PoseidonState),
      (∀ i, a ≤ i → i < a + n → ¬ (i < 4 ∨ 61 ≤ i)) →
      (List.range' a n).foldl specRoundStep st =
        Poseidon.iterApply Poseidon.partialRound n st := by
  induction n with
  | zero => intro a st _; rfl
  | succ m ih =>
    intro a st h
    rw [List.range'_succ, List.foldl_cons]
    have hstep : specRoundStep st a = Poseidon.partialRound st := by
      unfold specRoundStep
      rw [if_neg (h a le_rfl (by omega))]
    rw [hstep]
    exact ih (a + 1) (Poseidon.partialRound st) fun i h1 h2 => h i (by omega) (by omega)

/-- The source's three-phase permutation equals the spec's single 65-round
pass. -/
theorem permute_eq_specPermute (st : PoseidonState) :
    Poseidon.permute st = specPermute st := by
  have h65 : List.range 65 =
      List.range' 0 4 ++ List.range' 4 57 ++ List.range' 61 4 := by decide
  rw [specPermute, h65, List.foldl_append, List.foldl_append]
  rw [foldl_spec_full 4 0 st (fun i _ _ => by omega)]
  rw [foldl_spec_partialRounds 57 4 _ (fun i h1 h2 => by omega)]
  rw [foldl_spec_full 4 61 _ (fun i h1 _ => by omega)]
  rfl

/-- Claim C9: `hash2` loads `(0, a, b)` with the first slot the capacity element
fixed to zero, runs the permutation consisting of 4 full rounds, then 57
partial rounds, then 4 full rounds (65 rounds total, width `t = 3`, the fixed
MDS matrix and round constants), and returns `state[0]` — formally, it equals
the spec-worded single-pass `specHash2`; and `hash4 (a, b, c, d)` equals
`hash2 (hash2 a b) (hash2 c d)` for all field-element inputs. -/
theorem poseidon_hash_structure (a b i0 i1 i2 i3 : Fr) :
    Poseidon.hash2 a b = specHash2 a b ∧
    Poseidon.hash4 i0 i1 i2 i3 =
      Poseidon.hash2 (Poseidon.hash2 i0 i1) (Poseidon.hash2 i2 i3) := by
  constructor
  · show (Poseidon.permute ⟨Fr.ZERO, a, b, 0⟩).s0 = _
    rw [permute_eq_specPermute]
    rfl
  · rfl

/-- Claim C3 (refuted — code bug): `Fr::mul` is not multiplication mod `p`:
on the canonical inputs `a = b = 2^128` (both below the modulus) the 512-bit
schoolbook product is `2^256`; `fast_reduce` then tries to subtract the
modulus shifted to limb offset 1, the subtraction borrows out of limb 4, the
attempt is reverted and the loop exits, after which the non-zero high limb is
silently discarded — the function returns 0, while the canonical
representative of `2^128 · 2^128 mod p` is non-zero. -/
theorem fr_mul_not_modular :
    frTwoPow128.val = 2 ^ 128 ∧ frTwoPow128.val < pBN254 ∧
    Fr.mul frTwoPow128 frTwoPow128 = Fr.ZERO ∧
    (Fr.mul frTwoPow128 frTwoPow128).val ≠
      frTwoPow128.val * frTwoPow128.val % pBN254 := by decide

/-- An insertion archives the pre-insertion root at the current ring index. -/
theorem insertLeaf_root_history (h : Nat → Nat → Nat) (zeros : Nat → Nat)
    (p : PrivacyPool) (c : Nat) :
    (insertLeaf h zeros p c).root_history =
      p.root_history.set p.root_history_index p.merkle_root := rfl

/-- An insertion advances the ring index modulo `ROOT_HISTORY_SIZE`. -/
theorem insertLeaf_root_history_index (h : Nat → Nat → Nat)
    (zeros : Nat → Nat) (p : PrivacyPool) (c : Nat) :
    (insertLeaf h zeros p c).root_history_index =
      (p.root_history_index + 1) % 30 := rfl

/-- The fresh pool's root history is all zeros. -/
theorem freshPool_root_history (zeros : Nat → Nat) (d : Nat) :
    (freshPool zeros d).root_history = List.replicate 30 0 := rfl

/-- The fresh pool's ring index is 0. -/
theorem freshPool_root_history_index (zeros : Nat → Nat) (d : Nat) :
    (freshPool zeros d).root_history_index = 0 := rfl

set_option maxHeartbeats 16000000 in
/-- After 35 insertions the ring buffer holds exactly the 30 pre-insertion
roots of insertions 6–35, i.e. the roots current after 5–34 insertions, the
first five slots having been overwritten by their second write. -/
theorem root_history_after_35 (h : Nat → Nat → Nat) (zeros : Nat → Nat)
    (d : Nat) (leaf : Nat → Nat) :
    (stateAt h zeros d leaf 35).root_history = [rootAt h zeros d leaf 30, rootAt h zeros d leaf 31, rootAt h zeros d leaf 32, rootAt h zeros d leaf 33, rootAt h zeros d leaf 34, rootAt h zeros d leaf 5, rootAt h zeros d leaf 6, rootAt h zeros d leaf 7, rootAt h zeros d leaf 8, rootAt h zeros d leaf 9, rootAt h zeros d leaf 10, rootAt h zeros d leaf 11, rootAt h zeros d leaf 12, rootAt h zeros d leaf 13, rootAt h zeros d leaf 14, rootAt h zeros d leaf 15, rootAt h zeros d leaf 16, rootAt h zeros d leaf 17, rootAt h zeros d leaf 18, rootAt h zeros d leaf 19, rootAt h zeros d leaf 20, rootAt h zeros d leaf 21, rootAt h zeros d leaf 22, rootAt h zeros d leaf 23, rootAt h zeros d leaf 24, rootAt h zeros d leaf 25, rootAt h zeros d leaf 26, rootAt h zeros d leaf 27, rootAt h zeros d leaf 28, rootAt h zeros d leaf 29] := by
  simp only [stateAt, rootAt, insertLeaf_root_history,
    insertLeaf_root_history_index, freshPool_root_history,
    freshPool_root_history_index]
  simp only [List.replicate, List.set_cons_zero, List.set_cons_succ]
  rfl

/-- Claim C5: Each insertion pushes the pre-insertion root into the 30-slot
ring-buffer history, overwriting the oldest entry; consequently, after
inserting `K + 5 = 35` leaves one at a time into a fresh pool (with pairwise
distinct, non-zero roots along the way, as a collision-free hash produces),
`is_valid_root` rejects the root that was current exactly `K + 1 = 31`
insertions ago (the root after 4 insertions) and accepts the root from
`K - 1 = 29` insertions ago (the root after 6 insertions) as well as the
current root. -/
theorem root_history_window (h : Nat → Nat → Nat) (zeros : Nat → Nat)
    (d : Nat) (leaf : Nat → Nat)
    (hdist : ∀ i, i ≤ 35 → ∀ j, j ≤ 35 → i ≠ j →
      rootAt h zeros d leaf i ≠ rootAt h zeros d leaf j)
    (hnz : ∀ i, i ≤ 35 → rootAt h zeros d leaf i ≠ 0) :
    isValidRoot (stateAt h zeros d leaf 35) (rootAt h zeros d leaf 4) = false ∧
    isValidRoot (stateAt h zeros d leaf 35) (rootAt h zeros d leaf 6) = true ∧
    isValidRoot (stateAt h zeros d leaf 35) (rootAt h zeros d leaf 35) = true := by
  have hcur : ((stateAt h zeros d leaf 35).merkle_root
      == rootAt h zeros d leaf 4) = false := by
    simpa [rootAt, beq_eq_false_iff_ne] using hdist 35 (by omega) 4 (by omega) (by omega)
  have hcur6 : ((stateAt h zeros d leaf 35).merkle_root
      == rootAt h zeros d leaf 6) = false := by
    simpa [rootAt, beq_eq_false_iff_ne] using hdist 35 (by omega) 6 (by omega) (by omega)
  have h6nz : (rootAt h zeros d leaf 6 != 0) = true := by
    simpa [bne_iff_ne] using hnz 6 (by omega)
  have e30 : (rootAt h zeros d leaf 30 == rootAt h zeros d leaf 4) = false := by
    simpa [beq_eq_false_iff_ne] using hdist 30 (by omega) 4 (by omega) (by omega)
  have e31 : (rootAt h zeros d leaf 31 == rootAt h zeros d leaf 4) = false := by
    simpa [beq_eq_false_iff_ne] using hdist 31 (by omega) 4 (by omega) (by omega)
  have e32 : (rootAt h zeros d leaf 32 == rootAt h zeros d leaf 4) = false := by
    simpa [beq_eq_false_iff_ne] using hdist 32 (by omega) 4 (by omega) (by omega)
  have e33 : (rootAt h zeros d leaf 33 == rootAt h zeros d leaf 4) = false := by
    simpa [beq_eq_false_iff_ne] using hdist 33 (by omega) 4 (by omega) (by omega)
  have e34 : (rootAt h zeros d leaf 34 == rootAt h zeros d leaf 4) = false := by
    simpa [beq_eq_false_iff_ne] using hdist 34 (by omega) 4 (by omega) (by omega)
  have e5 : (rootAt h zeros d leaf 5 == rootAt h zeros d leaf 4) = false := by
    simpa [beq_eq_false_iff_ne] using hdist 5 (by omega) 4 (by omega) (by omega)
  have e6 : (rootAt h zeros d leaf 6 == rootAt h zeros d leaf 4) = false := by
    simpa [beq_eq_false_iff_ne] using hdist 6 (by omega) 4 (by omega) (by omega)
  have e7 : (rootAt h zeros d leaf 7 == rootAt h zeros d leaf 4) = false := by
    simpa [beq_eq_false_iff_ne] using hdist 7 (by omega) 4 (by omega) (by omega)
  have e8 : (rootAt h zeros d leaf 8 == rootAt h zeros d leaf 4) = false := by
    simpa [beq_eq_false_iff_ne] using hdist 8 (by omega) 4 (by omega) (by omega)
  have e9 : (rootAt h zeros d leaf 9 == rootAt h zeros d leaf 4) = false := by
    simpa [beq_eq_false_iff_ne] using hdist 9 (by omega) 4 (by omega) (by omega)
  have e10 : (rootAt h zeros d leaf 10 == rootAt h zeros d leaf 4) = false := by
    simpa [beq_eq_false_iff_ne] using hdist 10 (by omega) 4 (by omega) (by omega)
  have e11 : (rootAt h zeros d leaf 11 == rootAt h zeros d leaf 4) = false := by
    simpa [beq_eq_false_iff_ne] using hdist 11 (by omega) 4 (by omega) (by omega)
  have e12 : (rootAt h zeros d leaf 12 == rootAt h zeros d leaf 4) = false := by
    simpa [beq_eq_false_iff_ne] using hdist 12 (by omega) 4 (by omega) (by omega)
  have e13 : (rootAt h zeros d leaf 13 == rootAt h zeros d leaf 4) = false := by
    simpa [beq_eq_false_iff_ne] using hdist 13 (by omega) 4 (by omega) (by omega)
  have e14 : (rootAt h zeros d leaf 14 == rootAt h zeros d leaf 4) = false := by
    simpa [beq_eq_false_iff_ne] using hdist 14 (by omega) 4 (by omega) (by omega)
  have e15 : (rootAt h zeros d leaf 15 == rootAt h zeros d leaf 4) = false := by
    simpa [beq_eq_false_iff_ne] using hdist 15 (by omega) 4 (by omega) (by omega)
  have e16 : (rootAt h zeros d leaf 16 == rootAt h zeros d leaf 4) = false := by
    simpa [beq_eq_false_iff_ne] using hdist 16 (by omega) 4 (by omega) (by omega)
  have e17 : (rootAt h zeros d leaf 17 == rootAt h zeros d leaf 4) = false := by
    simpa [beq_eq_false_iff_ne] using hdist 17 (by omega) 4 (by omega) (by omega)
  have e18 : (rootAt h zeros d leaf 18 == rootAt h zeros d leaf 4) = false := by
    simpa [beq_eq_false_iff_ne] using hdist 18 (by omega) 4 (by omega) (by omega)
  have e19 : (rootAt h zeros d leaf 19 == rootAt h zeros d leaf 4) = false := by
    simpa [beq_eq_false_iff_ne] using hdist 19 (by omega) 4 (by omega) (by omega)
  have e20 : (rootAt h zeros d leaf 20 == rootAt h zeros d leaf 4) = false := by
    simpa [beq_eq_false_iff_ne] using hdist 20 (by omega) 4 (by omega) (by omega)
  have e21 : (rootAt h zeros d leaf 21 == rootAt h zeros d leaf 4) = false := by
    simpa [beq_eq_false_iff_ne] using hdist 21 (by omega) 4 (by omega) (by omega)
  have e22 : (rootAt h zeros d leaf 22 == rootAt h zeros d leaf 4) = false := by
    simpa [beq_eq_false_iff_ne] using hdist 22 (by omega) 4 (by omega) (by omega)
  have e23 : (rootAt h zeros d leaf 23 == rootAt h zeros d leaf 4) = false := by
    simpa [beq_eq_false_iff_ne] using hdist 23 (by omega) 4 (by omega) (by omega)
  have e24 : (rootAt h zeros d leaf 24 == rootAt h zeros d leaf 4) = false := by
    simpa [beq_eq_false_iff_ne] using hdist 24 (by omega) 4 (by omega) (by omega)
  have e25 : (rootAt h zeros d leaf 25 == rootAt h zeros d leaf 4) = false := by
    simpa [beq_eq_false_iff_ne] using hdist 25 (by omega) 4 (by omega) (by omega)
  have e26 : (rootAt h zeros d leaf 26 == rootAt h zeros d leaf 4) = false := by
    simpa [beq_eq_false_iff_ne] using hdist 26 (by omega) 4 (by omega) (by omega)
  have e27 : (rootAt h zeros d leaf 27 == rootAt h zeros d leaf 4) = false := by
    simpa [beq_eq_false_iff_ne] using hdist 27 (by omega) 4 (by omega) (by omega)
  have e28 : (rootAt h zeros d leaf 28 == rootAt h zeros d leaf 4) = false := by
    simpa [beq_eq_false_iff_ne] using hdist 28 (by omega) 4 (by omega) (by omega)
  have e29 : (rootAt h zeros d leaf 29 == rootAt h zeros d leaf 4) = false := by
    simpa [beq_eq_false_iff_ne] using hdist 29 (by omega) 4 (by omega) (by omega)
  refine ⟨?_, ?_, ?_⟩
  · simp [isValidRoot, hcur, root_history_after_35, e30, e31, e32, e33, e34, e5, e6, e7, e8, e9, e10, e11, e12, e13, e14, e15, e16, e17, e18, e19, e20, e21, e22, e23, e24, e25, e26, e27, e28, e29]
  · simp [isValidRoot, hcur6, root_history_after_35, h6nz]
  · simp [isValidRoot, rootAt]

set_option maxRecDepth 4000 in
/-- Witness for claim C5: the window theorem applied to the concrete node hash
`h a b = a + b + 1`, zero table `zeros i = i`, denomination 0 and leaf
sequence `0, 1, 2, …`, whose 36 successive roots are pairwise distinct and
non-zero. -/
theorem root_history_window_witness :
    isValidRoot (stateAt (fun a b => a + b + 1) (fun i => i) 0 (fun k => k) 35)
      (rootAt (fun a b => a + b + 1) (fun i => i) 0 (fun k => k) 4) = false ∧
    isValidRoot (stateAt (fun a b => a + b + 1) (fun i => i) 0 (fun k => k) 35)
      (rootAt (fun a b => a + b + 1) (fun i => i) 0 (fun k => k) 6) = true ∧
    isValidRoot (stateAt (fun a b => a + b + 1) (fun i => i) 0 (fun k => k) 35)
      (rootAt (fun a b => a + b + 1) (fun i => i) 0 (fun k => k) 35) = true :=
  root_history_window (fun a b => a + b + 1) (fun i => i) 0 (fun k => k)
    (by decide) (by decide)


/-- Generalised level-walk correspondence: folding `merkleLevelStep` over the
level indices `a, a+1, …, a+n-1` computes exactly the spec's recursive walk
started at level `a`. -/
theorem foldl_merkleLevelStep (h : Nat → Nat → Nat) (zeros : Nat → Nat)
    (n : Nat) :
    ∀ (a : Nat) (st : List Nat × Nat × Nat),
      (((List.range' a n).foldl (fun acc i => merkleLevelStep h zeros i acc) st).1,
       ((List.range' a n).foldl (fun acc i => merkleLevelStep h zeros i acc) st).2.2) =
        specWalk h zeros n a st.1 st.2.1 st.2.2 := by
  induction n with
  | zero => intro a st; rfl
  | succ m ih =>
    intro a st
    rw [List.range'_succ, List.foldl_cons]
    cases hc : st.2.1 % 2 == 0 with
    | true =>
      have hstep : merkleLevelStep h zeros a st =
          (st.1.set a st.2.2, st.2.1 / 2, h st.2.2 (zeros a)) := by
        simp [merkleLevelStep, hc]
      rw [hstep, specWalk, if_pos hc]
      exact ih (a + 1) _
    | false =>
      have hstep : merkleLevelStep h zeros a st =
          (st.1, st.2.1 / 2, h (st.1.getD a 0) st.2.2) := by
        simp [merkleLevelStep, hc]
      rw [hstep, specWalk, if_neg (by simp [hc])]
      exact ih (a + 1) _

/-- Claim C6: Merkle insertion follows the incremental-tree algorithm: the
per-level loop of `compute_new_root_zc` (store the running hash as the filled
subtree and pair with `Z[level]` when the index is even, pair with the stored
filled subtree when odd, halving the index each level) computes exactly the
spec's recursive walk, for every hash function, zero table, subtree state,
leaf and index; and insertion is a pure function of the pool state and leaf —
two fresh pools fed the identical leaf sequence yield bit-identical roots. -/
theorem merkle_insert_structure :
    (∀ (h : Nat → Nat → Nat) (zeros : Nat → Nat) (subtrees : List Nat)
        (commitment leaf_index : Nat),
      computeNewRootZC h zeros subtrees commitment leaf_index =
        specComputeRoot h zeros subtrees commitment leaf_index) ∧
    (∀ (h : Nat → Nat → Nat) (zeros : Nat → Nat) (d : Nat) (leaves : List Nat)
        (p q : PrivacyPool), p = freshPool zeros d → q = freshPool zeros d →
      (insertAll h zeros p leaves).merkle_root =
        (insertAll h zeros q leaves).merkle_root) := by
  constructor
  · intro h zeros subtrees commitment leaf_index
    show (_, _) = _
    unfold specComputeRoot
    rw [List.range_eq_range']
    exact foldl_merkleLevelStep h zeros MERKLE_DEPTH 0
      (subtrees, leaf_index, commitment)
  · intro h zeros d leaves p q hp hq
    rw [hp, hq]


/-- Claim C10: `is_valid_root` never matches an unset (all-zero) slot of the
root history: querying the all-zero root returns true exactly when the pool's
current `merkle_root` is itself all-zero, for every pool state; and on any
pool whose history is entirely zero-initialised (as in a fresh pool), a query
succeeds exactly when it equals the current root. -/
theorem zero_root_never_validates :
    (∀ pool : PrivacyPool, isValidRoot pool 0 = (pool.merkle_root == 0)) ∧
    (∀ (denom mr nli td tw dc wc rhi r : Nat) (fs : List Nat) (ia : Bool),
      isValidRoot ⟨denom, mr, nli, fs, td, tw, dc, wc, ia,
        List.replicate ROOT_HISTORY_SIZE 0, rhi⟩ r = (mr == r)) := by
  constructor
  · intro pool
    by_cases hmr : pool.merkle_root = 0
    · simp [isValidRoot, hmr]
    · simp only [isValidRoot, beq_iff_eq, if_neg hmr, hmr]
      rw [List.any_eq_false.mpr]
      · simp [hmr]
      · intro x hx
        by_cases hx0 : x = 0 <;> simp [hx0]
  · intro denom mr nli td tw dc wc rhi r fs ia
    by_cases hmr : mr = r
    · simp [isValidRoot, hmr]
    · simp [isValidRoot, hmr, List.any_replicate]


/-- Claim C4 (corrected): `verify_groth16` returns an error exactly when the
verification key's IC length differs from the public-input count plus one;
every other outcome — including an all-zero proof point, an out-of-field
public input, a failing `alt_bn128` syscall and a structurally valid but
cryptographically invalid proof — is returned as `Ok(false)` (or `Ok(true)`
on a passing pairing check), never as an error. -/
theorem groth16_error_iff (g1mulOp g1addOp : Nat → Nat → Option Nat)
    (pairingOp : List Nat → Option Nat) (proof : Groth16Proof)
    (public_inputs : List Nat) (vk : VerificationKey) :
    exceptIsOk (verifyGroth16 g1mulOp g1addOp pairingOp proof public_inputs vk) =
      (public_inputs.length + 1 == vk.ic.length) := by
  by_cases hlen : public_inputs.length + 1 = vk.ic.length
  · simp only [verifyGroth16, hlen, beq_self_eq_true]
    rw [if_neg (by simp)]
    split
    · rfl
    · split
      · rfl
      · split
        · rfl
        · split <;> rfl
  · simp [verifyGroth16, hlen, exceptIsOk]

/-- Claim C4, counterexample: The claim says an all-zero proof point and an
out-of-field public input are errors; on the code both are `Ok(false)`:
a proof with `pi_a = 0` (and matching IC length) returns `Ok(false)`, and a
public input equal to the modulus constant (hence not below it) also returns
`Ok(false)`. -/
theorem groth16_counterexample :
    verifyGroth16 (fun _ _ => none) (fun _ _ => none) (fun _ => none)
      ⟨0, 5, 5⟩ [] ⟨1, 1, 1, 1, [2]⟩ = .ok false ∧
    verifyGroth16 (fun _ _ => none) (fun _ _ => none) (fun _ => none)
      ⟨3, 5, 5⟩ [qBN254] ⟨1, 1, 1, 1, [2, 2]⟩ = .ok false := by
  constructor <;> rfl



/-- Reduction lemma: `throw` on `Except` is `Except.error`. -/
theorem except_throw {ε α : Type} (e : ε) :
    (throw e : Except ε α) = Except.error e := rfl

/-- Reduction lemma: `pure` on `Except` is `Except.ok`. -/
theorem except_pure {ε α : Type} (a : α) :
    (pure a : Except ε α) = Except.ok a := rfl

/-- Binding an error short-circuits. -/
theorem except_error_bind {ε α β : Type} (e : ε) (f : α → Except ε β) :
    ((Except.error e : Except ε α) >>= f) = Except.error e := rfl

/-- Binding a success applies the continuation. -/
theorem except_ok_bind {ε α β : Type} (a : α) (f : α → Except ε β) :
    ((Except.ok a : Except ε α) >>= f) = f a := rfl

/-- Mapping over a success. -/
theorem except_map_ok {ε α β : Type} (f : α → β) (a : α) :
    (f <$> (Except.ok a : Except ε α)) = Except.ok (f a) := rfl

/-- Mapping over an error. -/
theorem except_map_error {ε α β : Type} (f : α → β) (e : ε) :
    (f <$> (Except.error e : Except ε α)) = Except.error e := rfl

/-- Claim C8: A withdrawal commitment can transition to executed at most once —
once executed, `can_execute` is false forever and any reveal fails — and a
reveal succeeds only inside the window: with a pending commitment (neither
executed nor cancelled) and a well-formed window, a reveal at
`elapsed = min_delay - 1` seconds fails with `NotInExecutionWindow`, a reveal
at `elapsed = min_delay` with the matching hash (and no relayer fee, covered
denomination) succeeds, and a reveal at `elapsed = max_delay + 1` fails
regardless of the revealed parameters. -/
theorem commit_reveal_timing (sha : Nat → Nat → Nat → Nat → Nat)
    (c : WithdrawalCommitment) (pool : PrivacyPool) (bal : RevealBalances)
    (hasRelayer : Bool) (ph ur non rec : Nat)
    (hne : c.executed = false) (hnc : c.cancelled = false)
    (hwin : c.min_delay_seconds ≤ c.max_delay_seconds)
    (hhash : sha ph rec ur non = c.commitment_hash)
    (hbal : c.denomination ≤ bal.pool) :
    (∀ now : Int, canExecute { c with executed := true } now = false) ∧
    (∀ (now : Int) (fee : Nat),
      revealAndWithdraw sha { c with executed := true } pool bal hasRelayer
        c.denomination ph ur non rec fee now = .error .CommitmentAlreadyExecuted) ∧
    revealAndWithdraw sha c pool bal hasRelayer c.denomination ph ur non rec 0
      (c.commit_timestamp + c.min_delay_seconds - 1) =
      .error .NotInExecutionWindow ∧
    exceptIsOk (revealAndWithdraw sha c pool bal hasRelayer c.denomination
      ph ur non rec 0 (c.commit_timestamp + c.min_delay_seconds)) = true ∧
    (∀ ph2 ur2 non2 rec2 fee : Nat,
      revealAndWithdraw sha c pool bal hasRelayer c.denomination
        ph2 ur2 non2 rec2 fee (c.commit_timestamp + c.max_delay_seconds + 1) =
        .error .NotInExecutionWindow) := by
  refine ⟨?_, ?_, ?_, ?_, ?_⟩
  · intro now
    simp [canExecute]
  · intro now fee
    simp [revealAndWithdraw, except_throw, except_error_bind, except_ok_bind, except_pure, except_map_ok, except_map_error]
  · have hce : canExecute c (c.commit_timestamp + c.min_delay_seconds - 1) = false := by
      simp [canExecute, hne, hnc]
      omega
    simp [revealAndWithdraw, hne, hnc, hce, except_throw, except_error_bind, except_ok_bind, except_pure, except_map_ok, except_map_error]
  · have hce : canExecute c (c.commit_timestamp + c.min_delay_seconds) = true := by
      simp [canExecute, hne, hnc]
      omega
    have hb : ¬ (bal.pool < c.denomination) := by omega
    simp [revealAndWithdraw, hne, hnc, hce, hhash, hb, exceptIsOk, except_throw, except_error_bind, except_ok_bind, except_pure, except_map_ok, except_map_error]
  · intro ph2 ur2 non2 rec2 fee
    have hce : canExecute c (c.commit_timestamp + c.max_delay_seconds + 1) = false := by
      simp [canExecute, hne, hnc]
      omega
    simp [revealAndWithdraw, hne, hnc, hce, except_throw, except_error_bind, except_ok_bind, except_pure, except_map_ok, except_map_error]

/-- Witness for claim C8: `commit_reveal_timing` at the concrete fixture — the
pending commitment `cCommit` (window 3600–86400 s from time 1000, hash 71),
hash oracle `shaFix`, revealed parameters `(11, 22, 33)` to recipient 5, fee
0, over the pool `wpool` and balances `rbal`. -/
theorem commit_reveal_timing_witness :
    (∀ now : Int, canExecute { cCommit with executed := true } now = false) ∧
    (∀ (now : Int) (fee : Nat),
      revealAndWithdraw shaFix { cCommit with executed := true } wpool rbal false
        cCommit.denomination 11 22 33 5 fee now = .error .CommitmentAlreadyExecuted) ∧
    revealAndWithdraw shaFix cCommit wpool rbal false cCommit.denomination
      11 22 33 5 0 (cCommit.commit_timestamp + cCommit.min_delay_seconds - 1) =
      .error .NotInExecutionWindow ∧
    exceptIsOk (revealAndWithdraw shaFix cCommit wpool rbal false
      cCommit.denomination 11 22 33 5 0
      (cCommit.commit_timestamp + cCommit.min_delay_seconds)) = true ∧
    (∀ ph2 ur2 non2 rec2 fee : Nat,
      revealAndWithdraw shaFix cCommit wpool rbal false cCommit.denomination
        ph2 ur2 non2 rec2 fee
        (cCommit.commit_timestamp + cCommit.max_delay_seconds + 1) =
        .error .NotInExecutionWindow) :=
  commit_reveal_timing shaFix cCommit wpool rbal false 11 22 33 5
    rfl rfl (by decide) (by decide) (by decide)


/-- Claim C2 (amended): `reveal_and_withdraw` succeeds exactly when the
commit-reveal conditions hold — the commitment is executable (pending and
inside its timing window), the revealed parameters hash to the stored
commitment hash, the denomination matches, a positive relayer fee is at most
10% of the amount and has a relayer account, and the pool balance covers the
transfers; on success it marks the commitment executed, pays the recipient
`denomination - fee` and the relayer the fee, decrements `deposit_count` and
leaves the Merkle root, the root history and the withdrawal counters
untouched.  It performs none of `private_withdraw`'s verification: no Merkle
root check, no nullifier record and no proof enters its interface. -/
theorem reveal_characterisation (sha : Nat → Nat → Nat → Nat → Nat)
    (c : WithdrawalCommitment) (pool : PrivacyPool) (bal : RevealBalances)
    (hasRelayer : Bool) (denom ph ur non rec fee : Nat) (now : Int) :
    (exceptIsOk (revealAndWithdraw sha c pool bal hasRelayer denom
        ph ur non rec fee now) = true ↔
      (canExecute c now = true ∧ sha ph rec ur non = c.commitment_hash ∧
       denom = c.denomination ∧
       (0 < fee → (fee ≤ denom / 10 ∧ hasRelayer = true ∧
         fee ≤ bal.pool - (denom - fee))) ∧
       denom - fee ≤ bal.pool)) ∧
    (∀ out, revealAndWithdraw sha c pool bal hasRelayer denom
        ph ur non rec fee now = .ok out →
      out.commitment.executed = true ∧
      out.pool.withdrawal_count = pool.withdrawal_count ∧
      out.pool.total_withdrawn = pool.total_withdrawn ∧
      out.pool.merkle_root = pool.merkle_root ∧
      out.pool.root_history = pool.root_history ∧
      out.pool.deposit_count = pool.deposit_count - 1 ∧
      out.balances.recipient = (bal.recipient + (denom - fee)) % U64 ∧
      out.balances.pool = bal.pool - (denom - fee) -
        (if 0 < fee ∧ hasRelayer = true then fee else 0)) := by
  by_cases he : c.executed = true
  · have hce : canExecute c now = false := by simp [canExecute, he]
    simp [revealAndWithdraw, he, hce, exceptIsOk, except_throw,
      except_error_bind, except_ok_bind, except_pure, except_map_ok,
      except_map_error]
  · by_cases hcc : c.cancelled = true
    · have hce : canExecute c now = false := by simp [canExecute, hcc]
      simp [revealAndWithdraw, he, hcc, hce, exceptIsOk, except_throw,
        except_error_bind, except_ok_bind, except_pure, except_map_ok,
        except_map_error]
    · by_cases h1 : canExecute c now = true
      case neg =>
        simp [revealAndWithdraw, he, hcc, h1, exceptIsOk, except_throw,
          except_error_bind, except_ok_bind, except_pure, except_map_ok,
          except_map_error]
      case pos =>
      by_cases h2 : sha ph rec ur non = c.commitment_hash
      case neg =>
        simp [revealAndWithdraw, he, hcc, h1, h2, exceptIsOk, except_throw,
          except_error_bind, except_ok_bind, except_pure, except_map_ok,
          except_map_error]
      case pos =>
      by_cases h3 : denom = c.denomination
      case neg =>
        simp [revealAndWithdraw, he, hcc, h1, h2, h3, exceptIsOk,
          except_throw, except_error_bind, except_ok_bind, except_pure,
          except_map_ok, except_map_error]
      case pos =>
      subst h3
      by_cases h4 : 0 < fee
      case neg =>
        by_cases h5 : bal.pool < c.denomination - fee
        · simp [revealAndWithdraw, he, hcc, h1, h2, h4, h5, exceptIsOk,
            except_throw, except_error_bind, except_ok_bind, except_pure,
            except_map_ok, except_map_error]
          omega
        · simp [revealAndWithdraw, he, hcc, h1, h2, h4, h5, exceptIsOk,
            except_throw, except_error_bind, except_ok_bind, except_pure,
            except_map_ok, except_map_error]
          omega
      case pos =>
      by_cases h6 : c.denomination / 10 < fee
      case pos =>
        have hfee : ¬ (fee ≤ c.denomination / 10) := by omega
        simp [revealAndWithdraw, he, hcc, h1, h2, h4, h6, hfee, exceptIsOk,
          except_throw, except_error_bind, except_ok_bind, except_pure,
          except_map_ok, except_map_error]
      case neg =>
      by_cases h7 : hasRelayer = true
      case neg =>
        simp [revealAndWithdraw, he, hcc, h1, h2, h4, h6, h7, exceptIsOk,
          except_throw, except_error_bind, except_ok_bind, except_pure,
          except_map_ok, except_map_error]
      case pos =>
      by_cases h5 : bal.pool < c.denomination - fee
      case pos =>
        simp [revealAndWithdraw, he, hcc, h1, h2, h4, h6, h7, h5, exceptIsOk,
          except_throw, except_error_bind, except_ok_bind, except_pure,
          except_map_ok, except_map_error]
        omega
      case neg =>
      by_cases h8 : bal.pool - (c.denomination - fee) < fee
      case pos =>
        simp [revealAndWithdraw, he, hcc, h1, h2, h4, h6, h7, h5, h8,
          exceptIsOk, except_throw, except_error_bind, except_ok_bind,
          except_pure, except_map_ok, except_map_error]
      case neg =>
        simp [revealAndWithdraw, he, hcc, h1, h2, h4, h6, h7, h5, h8,
          exceptIsOk, except_throw, except_error_bind, except_ok_bind,
          except_pure, except_map_ok, except_map_error]
        omega


/-- Claim C2, counterexample: A concrete successful `reveal_and_withdraw`
(fixture commitment `cCommit` revealed at `elapsed = min_delay` with the
matching hash): the full denomination leaves the pool, yet the pool's
withdrawal counters are untouched, no nullifier exists anywhere in the
reveal interface, and `deposit_count` is decremented instead — the reveal
path does not perform `private_withdraw`'s verification and bookkeeping
(valid Merkle root, nullifier recording, proof acceptance). -/
theorem reveal_skips_withdraw_checks :
    ∃ out : RevealOutcome,
      revealAndWithdraw shaFix cCommit wpool rbal false cCommit.denomination
        11 22 33 5 0 4600 = .ok out ∧
      out.pool.withdrawal_count = wpool.withdrawal_count ∧
      out.pool.total_withdrawn = wpool.total_withdrawn ∧
      out.pool.root_history = wpool.root_history ∧
      out.pool.deposit_count + 1 = wpool.deposit_count ∧
      out.balances.pool + cCommit.denomination = rbal.pool ∧
      out.balances.recipient = cCommit.denomination :=
  ⟨_, rfl, rfl, rfl, rfl, rfl, rfl, rfl⟩

/-- Witness for claim C2 (amended): `reveal_characterisation` at the concrete
fixture, with the success side of the equivalence discharged by computation
and the effects clause applied as proved. -/
theorem reveal_characterisation_witness :
    (exceptIsOk (revealAndWithdraw shaFix cCommit wpool rbal false
        cCommit.denomination 11 22 33 5 0 4600) = true ↔
      (canExecute cCommit 4600 = true ∧
       shaFix 11 5 22 33 = cCommit.commitment_hash ∧
       cCommit.denomination = cCommit.denomination ∧
       (0 < 0 → ((0 : Nat) ≤ cCommit.denomination / 10 ∧ false = true ∧
         (0 : Nat) ≤ rbal.pool - (cCommit.denomination - 0))) ∧
       cCommit.denomination - 0 ≤ rbal.pool)) ∧
    (∀ out, revealAndWithdraw shaFix cCommit wpool rbal false
        cCommit.denomination 11 22 33 5 0 4600 = .ok out →
      out.commitment.executed = true ∧
      out.pool.withdrawal_count = wpool.withdrawal_count ∧
      out.pool.total_withdrawn = wpool.total_withdrawn ∧
      out.pool.merkle_root = wpool.merkle_root ∧
      out.pool.root_history = wpool.root_history ∧
      out.pool.deposit_count = wpool.deposit_count - 1 ∧
      out.balances.recipient = (rbal.recipient + (cCommit.denomination - 0)) % U64 ∧
      out.balances.pool = rbal.pool - (cCommit.denomination - 0) -
        (if 0 < 0 ∧ false = true then 0 else 0)) :=
  reveal_characterisation shaFix cCommit wpool rbal false
    cCommit.denomination 11 22 33 5 0 4600


/-- Claim C7 (amended): For every withdrawal that passes all checks, the pool
balance decreases by exactly the denomination `d`, the stealth recipient
receives exactly `d` minus the relayer fee (saturating), the nullifier is
recorded, and `total_withdrawn` and `withdrawal_count` each increase
accordingly; the passed checks are pool activity, denomination match, root
validity, commitment validity and proof acceptance.  No cap is enforced on
the relayer fee on this path. -/
theorem private_withdraw_effects (validPoint : Nat → Bool)
    (commitHash : Nat → Nat → Nat → Nat → Nat) (zkAccepts : Bool)
    (pool : PrivacyPool) (bal : Lamports) (denomination : Nat)
    (inputs : WithdrawPublicInputs) (relayer_fee : Nat) (now : Int)
    (slot : Nat) (out : WithdrawOutcome)
    (hsucc : privateWithdraw validPoint commitHash zkAccepts pool bal
      denomination inputs relayer_fee now slot = .ok out) :
    pool.is_active = true ∧ pool.denomination = denomination ∧
    isValidRoot pool inputs.merkle_root = true ∧ zkAccepts = true ∧
    pool.denomination ≤ bal.pool ∧
    out.balances.pool = bal.pool - pool.denomination ∧
    out.balances.stealth_address =
      (bal.stealth_address + (pool.denomination - relayer_fee)) % U64 ∧
    out.nullifier.nullifier_hash = inputs.nullifier_hash ∧
    out.pool.total_withdrawn = pool.total_withdrawn + pool.denomination ∧
    out.pool.withdrawal_count = pool.withdrawal_count + 1 := by
  unfold privateWithdraw verifyStealthCommitment transferWithdrawalFundsZC
    at hsucc
  simp only [except_throw, except_error_bind, except_ok_bind, except_pure,
    except_map_ok, except_map_error] at hsucc
  repeat' split at hsucc
  any_goals exact Except.noConfusion hsucc
  all_goals simp only [except_ok_bind, except_pure] at hsucc
  all_goals injection hsucc with hout
  all_goals subst hout
  all_goals simp_all


/-- Witness for claim C7 (amended): `private_withdraw_effects` at a concrete
successful withdrawal from `wpool` (accepting point/commitment/proof oracles,
valid current root, fee 0). -/
theorem private_withdraw_effects_witness :
    ∃ out, privateWithdraw (fun _ => true) (fun _ _ _ _ => 0) true wpool
        ⟨5000000000, 0, 0⟩ 1000000000 wInputs 0 100 5 = .ok out ∧
      (wpool.is_active = true ∧ wpool.denomination = 1000000000 ∧
       isValidRoot wpool wInputs.merkle_root = true ∧ true = true ∧
       wpool.denomination ≤ (⟨5000000000, 0, 0⟩ : Lamports).pool ∧
       out.balances.pool = (⟨5000000000, 0, 0⟩ : Lamports).pool - wpool.denomination ∧
       out.balances.stealth_address =
         ((⟨5000000000, 0, 0⟩ : Lamports).stealth_address +
           (wpool.denomination - 0)) % U64 ∧
       out.nullifier.nullifier_hash = wInputs.nullifier_hash ∧
       out.pool.total_withdrawn = wpool.total_withdrawn + wpool.denomination ∧
       out.pool.withdrawal_count = wpool.withdrawal_count + 1) := by
  refine ⟨_, rfl, ?_⟩
  exact private_withdraw_effects (fun _ => true) (fun _ _ _ _ => 0) true wpool
    ⟨5000000000, 0, 0⟩ 1000000000 wInputs 0 100 5 _ rfl

/-- Claim C7, counterexample: No relayer-fee cap is enforced by
`private_withdraw`: a withdrawal with `relayer_fee` equal to the whole
denomination — ten times the 10% cap the commit-reveal path enforces —
passes every check; the recipient receives 0 and the relayer the entire
denomination. -/
theorem private_withdraw_no_fee_cap :
    ∃ out, privateWithdraw (fun _ => true) (fun _ _ _ _ => 0) true wpool
        ⟨5000000000, 0, 0⟩ 1000000000 wInputs 1000000000 100 5 = .ok out ∧
      out.balances.stealth_address = 0 ∧
      out.balances.relayer = 1000000000 ∧
      wpool.denomination / 10 < 1000000000 :=
  ⟨_, rfl, rfl, rfl, by decide⟩


/-- Witness for claim C6: `merkle_insert_structure` applied at the concrete
hash `h a b = a + b + 1`, zero table `zeros i = i`, a zeroed subtree list,
leaf 7 at index 3, and the leaf sequence `[1, 2, 3]` into two fresh pools. -/
theorem merkle_insert_structure_witness :
    computeNewRootZC (fun a b => a + b + 1) (fun i => i)
        (List.replicate 20 0) 7 3 =
      specComputeRoot (fun a b => a + b + 1) (fun i => i)
        (List.replicate 20 0) 7 3 ∧
    (insertAll (fun a b => a + b + 1) (fun i => i)
        (freshPool (fun i => i) 0) [1, 2, 3]).merkle_root =
      (insertAll (fun a b => a + b + 1) (fun i => i)
        (freshPool (fun i => i) 0) [1, 2, 3]).merkle_root :=
  ⟨merkle_insert_structure.1 (fun a b => a + b + 1) (fun i => i)
      (List.replicate 20 0) 7 3,
    merkle_insert_structure.2 (fun a b => a + b + 1) (fun i => i) 0 [1, 2, 3]
      (freshPool (fun i => i) 0) (freshPool (fun i => i) 0) rfl rfl⟩

end Nocturne
